import Mathlib

/-!
gpiod-lib: a shallow embedding of `src/gpiod.c`.

The development embeds the GPIO line library (`headers/gpiod.h`,
`headers/gpio_addressing.h`, `src/gpiod.c`) and states properties of it.

Modelling conventions.

* `uint8_t`, `uint32_t` and pointers are natural numbers; 32-bit arithmetic is
  reduced with `u32` (`% 2 ^ 32`), 8-bit conversion with `u8` (`% 2 ^ 8`).
* Device memory is a map from byte address to 32-bit word (`Regs`).  Every
  register pointer produced by `request_gpio_line` is the base address returned
  by `mmap` plus a multiple of four, so distinct pointers never overlap.
* A pointer to the private structure is an `Option`: `none` is `NULL`.
* Where the structure itself is at stake it is placed in the same memory as the
  registers, one cell per member (`privDatAt`), and the operations are run on that
  memory through the pointer (`__set_gpio_fn_at`, `__write_gpio_at`).
* The outcome of the three system services used by `request_gpio_line`
  (`open`, `mmap`, `malloc`) is an input (`SysOutcome`); their effect on the
  process is recorded in an explicit resource state (`Resources`).
-/

namespace Gpiod

/-! ## `headers/gpiod.h` -/

def EDEVMEM_OPEN : Int := -1
def EBAD_PIN : Int := -2
def EMALLOC : Int := -3
def EMAP_FAIL : Int := -4
def EPDAT_NULL : Int := -5
def EPIN_CONFIG : Int := -6
def EOUT_OF_RANGE : Int := -7

/-- Function selection bit values (`enum FunctionSelect`). -/
inductive FunctionSelect where
  | INPUT
  | OUTPUT
  | ALT_0
  | ALT_1
  | ALT_2
  | ALT_3
  | ALT_4
  | ALT_5
  deriving DecidableEq

/-- The integer value of an enumerator of `enum FunctionSelect`. -/
def FunctionSelect.val : FunctionSelect → Nat
  | .INPUT => 0x00
  | .OUTPUT => 0x01
  | .ALT_0 => 0x04
  | .ALT_1 => 0x05
  | .ALT_2 => 0x06
  | .ALT_3 => 0x07
  | .ALT_4 => 0x03
  | .ALT_5 => 0x02

/-! ## `headers/gpio_addressing.h` -/

def ARM_PERIPHERAL_BASE_ADDR : Nat := 0xFE000000
def GPIO_BASE_REG_ADDR : Nat := ARM_PERIPHERAL_BASE_ADDR + 0x00200000
def GPIO_REG_SIZE : Nat := 0x04

def GPREG0_1BIT_WRITE_MASK : Nat := 0xFFFFFFFF
def GPREG1_1BIT_WRITE_MASK : Nat := 0x03FFFFFF
def GPREG0_2_2BIT_WRITE_MASK : Nat := 0xFFFFFFFF
def GPREG3_2BIT_WRITE_MASK : Nat := 0x000FFFFF
def GPREG0_4_3BIT_WRITE_MASK : Nat := 0x3FFFFFFF
def GPREG5_3BIT_WRITE_MASK : Nat := 0x00FFFFFF

def GPFN_SEL0_OFF : Nat := 0x00
def GPFN_SEL1_OFF : Nat := 0x04
def GPFN_SEL2_OFF : Nat := 0x08
def GPFN_SEL3_OFF : Nat := 0x0C
def GPFN_SEL4_OFF : Nat := 0x10
def GPFN_SEL5_OFF : Nat := 0x14
def GPSET0_OFF : Nat := 0x1C
def GPSET1_OFF : Nat := 0x20
def GPCLR0_OFF : Nat := 0x28
def GPCLR1_OFF : Nat := 0x2C
def GPLEV0_OFF : Nat := 0x34
def GPLEV1_OFF : Nat := 0x38
def GPEDS0_OFF : Nat := 0x40
def GPEDS1_OFF : Nat := 0x44
def GPREN0_OFF : Nat := 0x4C
def GPREN1_OFF : Nat := 0x50
def GPFEN0_OFF : Nat := 0x58
def GPFEN1_OFF : Nat := 0x5C
def GPHEN0_OFF : Nat := 0x58
def GPHEN1_OFF : Nat := 0x5C
def GPLEN0_OFF : Nat := 0x64
def GPLEN1_OFF : Nat := 0x68
def GPAREN0_OFF : Nat := 0x7C
def GPAREN1_OFF : Nat := 0x80
def GPAFEN0_OFF : Nat := 0x88
def GPAFEN1_OFF : Nat := 0x8C
def GP_PUP_PDN_CNTRL_REG0 : Nat := 0xE4
def GP_PUP_PDN_CNTRL_REG1 : Nat := 0xE8
def GP_PUP_PDN_CNTRL_REG2 : Nat := 0xEC
def GP_PUP_PDN_CNTRL_REG3 : Nat := 0xF0

def GPIO_END_ADDR : Nat := GPIO_BASE_REG_ADDR + GP_PUP_PDN_CNTRL_REG3 + GPIO_REG_SIZE
def GPIO_ADDR_RANGE_SIZE : Nat := GPIO_END_ADDR - GPIO_BASE_REG_ADDR

/-! ## `src/gpiod.c`: constants and register tables -/

def BIT_VALUE_1 : Nat := 0x02

def PIN_MAX : Nat := 57
def PIN_MAX_BIT : Nat := 32
def BASE_TEN : Nat := 10
def THREE_BIT_MASK : Nat := 0x07
def BIT32_SIZE : Nat := 32

def FNSEL_REGS : List Nat :=
  [GPFN_SEL0_OFF, GPFN_SEL1_OFF, GPFN_SEL2_OFF, GPFN_SEL3_OFF, GPFN_SEL4_OFF, GPFN_SEL5_OFF]
def PUP_PDN_REGS : List Nat :=
  [GP_PUP_PDN_CNTRL_REG0, GP_PUP_PDN_CNTRL_REG1, GP_PUP_PDN_CNTRL_REG2, GP_PUP_PDN_CNTRL_REG3]
def GPSET_REGS : List Nat := [GPSET0_OFF, GPSET1_OFF]
def GPCLR_REGS : List Nat := [GPCLR0_OFF, GPCLR1_OFF]
def GPLEV_REGS : List Nat := [GPLEV0_OFF, GPLEV1_OFF]
def GPEDS_REGS : List Nat := [GPEDS0_OFF, GPEDS1_OFF]
def GPREN_REGS : List Nat := [GPREN0_OFF, GPREN1_OFF]
def GPFEN_REGS : List Nat := [GPFEN0_OFF, GPFEN1_OFF]
def GPHEN_REGS : List Nat := [GPHEN0_OFF, GPHEN1_OFF]
def GPLEN_REGS : List Nat := [GPLEN0_OFF, GPLEN1_OFF]
def GPAREN_REGS : List Nat := [GPAREN0_OFF, GPAREN1_OFF]
def GPAFEN_REGS : List Nat := [GPAFEN0_OFF, GPAFEN1_OFF]

def PUP_PDN_REGS_SZ : Nat := PUP_PDN_REGS.length
def FNSEL_REGS_SZ : Nat := FNSEL_REGS.length
def BIT_1_REGS_SZ : Nat := GPSET_REGS.length

/-! ## Machine words and device memory -/

/-- Reduction to an unsigned 32-bit value. -/
def u32 (n : Nat) : Nat := n % 2 ^ 32

/-- Conversion to `uint8_t`. -/
def u8 (n : Nat) : Nat := n % 2 ^ 8

/-- Device memory: byte address to the 32-bit word stored there. -/
abbrev Regs := Nat → Nat

/-- The load `*(uint32_t *)addr`. -/
def read32 (regs : Regs) (addr : Nat) : Nat := u32 (regs addr)

/-- The store `*(uint32_t *)addr = value`. -/
def write32 (regs : Regs) (addr : Nat) (value : Nat) : Regs :=
  fun a => if a = addr then u32 value else regs a

/-- Element `i` of a register table (`TABLE[i]`). -/
def tableAt (table : List Nat) (i : Nat) : Nat := table.getD i 0

/-! ## `src/gpiod.c`: private data -/

/-- Values a `_write_gpio` member can hold: the one function of the type
`int32_t (*)(_gpio_internals_t *, uint8_t)`. -/
inductive WriteGpioPtr where
  | addr__write_gpio
  deriving DecidableEq

/-- Values a `_set_gpio_fn` member can hold: the one function of the type
`int32_t (*)(_gpio_internals_t *, enum FunctionSelect)`. -/
inductive SetGpioFnPtr where
  | addr__set_gpio_fn
  deriving DecidableEq

/-- The private data of a line (`struct _gpio_internals`). -/
structure _gpio_internals_t where
  _fd : Int
  _pin_value : Nat
  _1_bit_map_mask : Nat
  _2_bit_map_mask : Nat
  _3_bit_map_mask : Nat
  _write_gpio : WriteGpioPtr
  _set_gpio_fn : SetGpioFnPtr
  _fn_sel_reg : Nat
  _pup_pdn_reg : Nat
  _set_reg : Nat
  _clr_reg : Nat
  _lvl_reg : Nat
  _eds_reg : Nat
  _ren_reg : Nat
  _fen_reg : Nat
  _hen_reg : Nat
  _len_reg : Nat
  _aren_reg : Nat
  _afen_reg : Nat
  deriving DecidableEq

/-- The public line object (`struct gpio_line`). -/
structure gpio_line_t where
  gpio_name : String
  priv_dat : Option _gpio_internals_t
  deriving DecidableEq

/-! ## `src/gpiod.c`: private functions -/

/-- `pin_in_range`: `-1` when the pin exceeds `PIN_MAX`, else `0`. -/
def pin_in_range (pin : Nat) : Int :=
  if pin > PIN_MAX then -1 else 0

/-- `__set_gpio_fn`: returns the status and the device memory after the call.
The body guarded by `0 == set_retval` runs exactly when neither check fired. -/
def __set_gpio_fn (__this_gpio_pdat : Option _gpio_internals_t)
    (__fn_sel : FunctionSelect) (regs : Regs) : Int × Regs :=
  match __this_gpio_pdat with
  | none => (EPDAT_NULL, regs)
  | some d =>
    if -1 = pin_in_range d._pin_value then (EBAD_PIN, regs)
    else
      let bit_shift := u32 ((d._pin_value % BASE_TEN) * 3)
      let fn_sel_bits := u32 (__fn_sel.val <<< bit_shift)
      let clear_bits := u32 ((0x03 <<< bit_shift) ^^^ d._3_bit_map_mask)
      let register_state := read32 regs d._fn_sel_reg &&& d._3_bit_map_mask
      (0, write32 regs d._fn_sel_reg ((register_state &&& clear_bits) ||| fn_sel_bits))

/-- `__write_gpio`: returns the status and the device memory after the call. -/
def __write_gpio (__this_gpio_pdat : Option _gpio_internals_t)
    (high_low : Nat) (regs : Regs) : Int × Regs :=
  match __this_gpio_pdat with
  | none => (EPDAT_NULL, regs)
  | some d =>
    if -1 = pin_in_range d._pin_value then (EBAD_PIN, regs)
    else
      let fn_sel_bit_shift := u32 ((d._pin_value % BASE_TEN) * 3)
      if FunctionSelect.OUTPUT.val ≠
          ((read32 regs d._fn_sel_reg >>> fn_sel_bit_shift) &&& THREE_BIT_MASK) then
        (EPIN_CONFIG, regs)
      else
        let setclr_bit_shift := u32 (d._pin_value % PIN_MAX_BIT)
        let setclr_bit := u32 (0x01 <<< setclr_bit_shift)
        let clear_bits := u32 ((0x01 <<< setclr_bit_shift) ^^^ d._1_bit_map_mask)
        if 1 = high_low then
          let register_state := read32 regs d._set_reg &&& d._1_bit_map_mask
          (0, write32 regs d._set_reg ((register_state &&& clear_bits) ||| setclr_bit))
        else if 0 = high_low then
          let register_state := read32 regs d._clr_reg &&& d._1_bit_map_mask
          (0, write32 regs d._clr_reg ((register_state &&& clear_bits) ||| setclr_bit))
        else (EOUT_OF_RANGE, regs)

/-- The call through a `_write_gpio` member. -/
def WriteGpioPtr.call : WriteGpioPtr → Option _gpio_internals_t → Nat → Regs → Int × Regs
  | .addr__write_gpio => __write_gpio

/-- The call through a `_set_gpio_fn` member. -/
def SetGpioFnPtr.call :
    SetGpioFnPtr → Option _gpio_internals_t → FunctionSelect → Regs → Int × Regs
  | .addr__set_gpio_fn => __set_gpio_fn

/-- The value of the C expression `a && b` for an `a` that holds. -/
def logicalAnd1 (b : Int) : Int := if b ≠ 0 then 1 else 0

/-! ## `src/gpiod.c`: public functions -/

/-- `write_gpio`: `(NULL != line->priv_dat) && line->priv_dat->_write_gpio(...)`. -/
def write_gpio (line : gpio_line_t) (high_low : Nat) (regs : Regs) : Int × Regs :=
  match line.priv_dat with
  | none => (0, regs)
  | some d =>
    let r := d._write_gpio.call (some d) (u8 high_low) regs
    (logicalAnd1 r.1, r.2)

/-- `set_gpio_fn`: `(NULL != line->priv_dat) && line->priv_dat->_write_gpio(..., sel)`;
the enumerator is converted to the `uint8_t` parameter of `_write_gpio`. -/
def set_gpio_fn (line : gpio_line_t) (sel : FunctionSelect) (regs : Regs) : Int × Regs :=
  match line.priv_dat with
  | none => (0, regs)
  | some d =>
    let r := d._write_gpio.call (some d) (u8 sel.val) regs
    (logicalAnd1 r.1, r.2)

/-! ## System services used by `request_gpio_line` -/

/-- What the system services answer during one call of `request_gpio_line`:
`open_fd` is the descriptor returned by `open("/dev/mem", O_RDWR)` (`none` when it
returns `-1`), `mmap_addr` the address returned by `mmap` (`none` for `MAP_FAILED`),
`malloc_ok` tells whether `malloc` returns a non-`NULL` pointer. -/
structure SysOutcome where
  open_fd : Option Nat
  mmap_addr : Option Nat
  malloc_ok : Bool
  deriving DecidableEq

/-- The resources of the process: the number of successful `open` and `mmap` calls made
so far, the descriptors open now, the base addresses mapped now and the number of
private structures allocated and not yet freed. -/
structure Resources where
  opens : Nat
  mmaps : Nat
  open_fds : List Int
  mapped : List Nat
  allocated : Nat
  deriving DecidableEq

/-- The call `open("/dev/mem", O_RDWR)`. -/
def sys_open (sys : SysOutcome) (os : Resources) : Int × Resources :=
  match sys.open_fd with
  | none => (-1, os)
  | some fd => (fd, { os with opens := os.opens + 1, open_fds := (fd : Int) :: os.open_fds })

/-- The call `mmap(0, GPIO_ADDR_RANGE_SIZE, ..., fd, GPIO_BASE_REG_ADDR)`. -/
def sys_mmap (sys : SysOutcome) (os : Resources) : Option Nat × Resources :=
  match sys.mmap_addr with
  | none => (none, os)
  | some base => (some base, { os with mmaps := os.mmaps + 1, mapped := base :: os.mapped })

/-- The call `malloc(sizeof(_gpio_internals_t))`; `true` stands for a non-`NULL` result. -/
def sys_malloc (sys : SysOutcome) (os : Resources) : Bool × Resources :=
  if sys.malloc_ok then (true, { os with allocated := os.allocated + 1 }) else (false, os)

/-- The call `close(fd)`; a negative descriptor is refused and nothing changes. -/
def sys_close (fd : Int) (os : Resources) : Resources :=
  if fd < 0 then os else { os with open_fds := os.open_fds.erase fd }

/-- The call `free(p)`; `free(NULL)` does nothing. -/
def sys_free (p : Option _gpio_internals_t) (os : Resources) : Resources :=
  match p with
  | none => os
  | some _ => { os with allocated := os.allocated - 1 }

/-! ## `src/gpiod.c`: `request_gpio_line` -/

/-- The local `fn_sel_reg_ind` of `request_gpio_line`. -/
def fn_sel_reg_ind (pin_value : Nat) : Nat := (pin_value / BASE_TEN) % FNSEL_REGS_SZ

/-- The local `pup_pdn_reg_ind` of `request_gpio_line`. -/
def pup_pdn_reg_ind (pin_value : Nat) : Nat :=
  (pin_value / (BIT32_SIZE / BIT_VALUE_1)) % PUP_PDN_REGS_SZ

/-- The local `single_bit_reg_ind` of `request_gpio_line`. -/
def single_bit_reg_ind (pin_value : Nat) : Nat := (pin_value / PIN_MAX_BIT) % BIT_1_REGS_SZ

/-- The private data stored by the last branch of `request_gpio_line`. -/
def fill_priv_dat (fd : Int) (gpio_base_uaddr : Nat) (pin_value : Nat) : _gpio_internals_t :=
  { _fd := fd
    _pin_value := pin_value
    _3_bit_map_mask :=
      if fn_sel_reg_ind pin_value ≠ FNSEL_REGS_SZ - 1 then GPREG0_4_3BIT_WRITE_MASK
      else GPREG5_3BIT_WRITE_MASK
    _2_bit_map_mask :=
      if pup_pdn_reg_ind pin_value ≠ PUP_PDN_REGS_SZ - 1 then GPREG0_2_2BIT_WRITE_MASK
      else GPREG3_2BIT_WRITE_MASK
    _1_bit_map_mask :=
      if single_bit_reg_ind pin_value ≠ BIT_1_REGS_SZ - 1 then GPREG0_1BIT_WRITE_MASK
      else GPREG1_1BIT_WRITE_MASK
    _fn_sel_reg := gpio_base_uaddr + tableAt FNSEL_REGS (fn_sel_reg_ind pin_value)
    _pup_pdn_reg := gpio_base_uaddr + tableAt PUP_PDN_REGS (pup_pdn_reg_ind pin_value)
    _set_reg := gpio_base_uaddr + tableAt GPSET_REGS (single_bit_reg_ind pin_value)
    _clr_reg := gpio_base_uaddr + tableAt GPCLR_REGS (single_bit_reg_ind pin_value)
    _lvl_reg := gpio_base_uaddr + tableAt GPLEV_REGS (single_bit_reg_ind pin_value)
    _eds_reg := gpio_base_uaddr + tableAt GPEDS_REGS (single_bit_reg_ind pin_value)
    _ren_reg := gpio_base_uaddr + tableAt GPREN_REGS (single_bit_reg_ind pin_value)
    _fen_reg := gpio_base_uaddr + tableAt GPFEN_REGS (single_bit_reg_ind pin_value)
    _hen_reg := gpio_base_uaddr + tableAt GPHEN_REGS (single_bit_reg_ind pin_value)
    _len_reg := gpio_base_uaddr + tableAt GPLEN_REGS (single_bit_reg_ind pin_value)
    _aren_reg := gpio_base_uaddr + tableAt GPAREN_REGS (single_bit_reg_ind pin_value)
    _afen_reg := gpio_base_uaddr + tableAt GPAFEN_REGS (single_bit_reg_ind pin_value)
    _set_gpio_fn := SetGpioFnPtr.addr__set_gpio_fn
    _write_gpio := WriteGpioPtr.addr__write_gpio }

/-- The state of `request_gpio_line` when it leaves the `if`/`else if` chain: the locals
`req_retval` and `fd`, the resources and the request object. -/
structure RequestState where
  req_retval : Int
  fd : Int
  os : Resources
  line : gpio_line_t

/-- The `if`/`else if` chain of `request_gpio_line`: range check, `open`, `mmap`, `malloc`,
then the initialisation of the private data. -/
def request_acquire (sys : SysOutcome) (os : Resources) (gpio_line_req : gpio_line_t)
    (pin_value : Nat) : RequestState :=
  if -1 = pin_in_range pin_value then
    { req_retval := EBAD_PIN, fd := -1, os := os, line := gpio_line_req }
  else
    let opened := sys_open sys os
    if -1 = opened.1 then
      { req_retval := EDEVMEM_OPEN, fd := opened.1, os := opened.2, line := gpio_line_req }
    else
      match sys_mmap sys opened.2 with
      | (none, os2) =>
        { req_retval := EMAP_FAIL, fd := opened.1, os := os2, line := gpio_line_req }
      | (some gpio_base_uaddr, os2) =>
        match sys_malloc sys os2 with
        | (false, os3) =>
          { req_retval := EMALLOC, fd := opened.1, os := os3,
            line := { gpio_line_req with priv_dat := none } }
        | (true, os3) =>
          { req_retval := 0, fd := opened.1, os := os3,
            line := { gpio_line_req with
                      priv_dat := some (fill_priv_dat opened.1 gpio_base_uaddr pin_value) } }

/-- `request_gpio_line`: returns `req_retval`, the resources after the call and the
request object after the call.  When `req_retval` is not `0` the function calls
`close(fd)` and `free(gpio_line_req->priv_dat)`; the pointer member itself is left as
it was. -/
def request_gpio_line (sys : SysOutcome) (os : Resources) (gpio_line_req : gpio_line_t)
    (pin_value : Nat) : Int × Resources × gpio_line_t :=
  let st := request_acquire sys os gpio_line_req pin_value
  if 0 ≠ st.req_retval then
    (st.req_retval, sys_free st.line.priv_dat (sys_close st.fd st.os), st.line)
  else
    (st.req_retval, st.os, st.line)

/-! ## Fixtures and notions used in the statements -/

/-- A request object before any request. -/
def freshLine : gpio_line_t := { gpio_name := "gpio", priv_dat := none }

/-- A process holding no descriptor, mapping or private structure. -/
def noResources : Resources :=
  { opens := 0, mmaps := 0, open_fds := [], mapped := [], allocated := 0 }

/-- All three system services succeed: descriptor `3`, mapping at `base`. -/
def sysOk (base : Nat) : SysOutcome :=
  { open_fd := some 3, mmap_addr := some base, malloc_ok := true }

/-- The line obtained by a successful request of `pin` with the mapping at `base`. -/
def requestedLine (base pin : Nat) : gpio_line_t :=
  (request_gpio_line (sysOk base) noResources freshLine pin).2.2

/-- Device memory with every word zero (every pin an input, nothing latched). -/
def zeroRegs : Regs := fun _ => 0

/-- Device memory in which pin 17 of the region mapped at `0x7000` is an output:
FunctionSelect word 1 (address `0x7004`) holds code 1 in bits 23:21. -/
def outputRegs17 : Regs := write32 zeroRegs 0x7004 (1 <<< 21)

/-- The 3-bit FunctionSelect code of the pin of `d` in the device memory `regs`. -/
def liveFunction (d : _gpio_internals_t) (regs : Regs) : Nat :=
  (read32 regs d._fn_sel_reg >>> ((d._pin_value % 10) * 3)) &&& 7

/-- The word `__write_gpio` stores in the Set or Clear register at `target`. -/
def strobeWord (d : _gpio_internals_t) (regs : Regs) (target : Nat) : Nat :=
  ((read32 regs target &&& d._1_bit_map_mask) &&&
      u32 ((0x01 <<< (d._pin_value % 32)) ^^^ d._1_bit_map_mask)) |||
    u32 (0x01 <<< (d._pin_value % 32))

/-- The word `__set_gpio_fn` stores in the FunctionSelect register of `d`. -/
def fnSelWord (d : _gpio_internals_t) (fn : FunctionSelect) (regs : Regs) : Nat :=
  ((read32 regs d._fn_sel_reg &&& d._3_bit_map_mask) &&&
      u32 ((0x03 <<< ((d._pin_value % 10) * 3)) ^^^ d._3_bit_map_mask)) |||
    u32 (fn.val <<< ((d._pin_value % 10) * 3))

/-- The local `bit_shift` of `__set_gpio_fn`. -/
def bit_shift (pin_value : Nat) : Nat := u32 ((pin_value % BASE_TEN) * 3)

/-- The local `fn_sel_bit_shift` of `__write_gpio`. -/
def fn_sel_bit_shift (pin_value : Nat) : Nat := u32 ((pin_value % BASE_TEN) * 3)

/-- The local `setclr_bit_shift` of `__write_gpio`. -/
def setclr_bit_shift (pin_value : Nat) : Nat := u32 (pin_value % PIN_MAX_BIT)

/-- The local `setclr_bit` of `__write_gpio`. -/
def setclr_bit (pin_value : Nat) : Nat := u32 (0x01 <<< setclr_bit_shift pin_value)

/-- The 32-bit complement `~x`. -/
def not32 (x : Nat) : Nat := 0xFFFFFFFF ^^^ u32 x

/-- The result of the masked read-modify-write that the specification gives for
`write_field` (section 4.2): with `field_width_mask = ((1 << width) - 1) << bit_shift`,
`clear_mask = (~field_width_mask) & write_mask` and `current = *word & write_mask`, the
word becomes `(current & clear_mask) | ((value & ((1 << width) - 1)) << bit_shift)`. -/
def spec_write_field (word write_mask bit_shift width value : Nat) : Nat :=
  let field_width_mask := u32 (((1 <<< width) - 1) <<< bit_shift)
  let clear_mask := not32 field_width_mask &&& write_mask
  let current := u32 word &&& write_mask
  u32 ((current &&& clear_mask) ||| u32 ((value &&& ((1 <<< width) - 1)) <<< bit_shift))

/-- One call `request_gpio_line(&line, pin)` together with what the system services
answer during it. -/
structure RequestCall where
  sys : SysOutcome
  line : gpio_line_t
  pin : Nat

/-- The resources after one call of `request_gpio_line`. -/
def request_step (os : Resources) (c : RequestCall) : Resources :=
  (request_gpio_line c.sys os c.line c.pin).2.1

/-- The resources after a sequence of calls of `request_gpio_line`. -/
def request_steps (os : Resources) (cs : List RequestCall) : Resources :=
  cs.foldl request_step os

/-- Whether every call of the sequence returns `0`. -/
def requests_succeed (os : Resources) : List RequestCall → Bool
  | [] => true
  | c :: cs =>
    decide ((request_gpio_line c.sys os c.line c.pin).1 = 0) &&
      requests_succeed (request_step os c) cs

/-- A successful request of `pin`: descriptor `fd`, mapping at `base`. -/
def okCall (fd base pin : Nat) : RequestCall :=
  { sys := { open_fd := some fd, mmap_addr := some base, malloc_ok := true },
    line := freshLine, pin := pin }

/-- The services during a request in which `open` and `mmap` succeed (descriptor `3`,
mapping at `base`) and `malloc` returns `NULL`. -/
def sysMallocFails (base : Nat) : SysOutcome :=
  { open_fd := some 3, mmap_addr := some base, malloc_ok := false }

/-- Device memory in which pin 17 of the region mapped at `0x7000` has the alternate
function 0: FunctionSelect word 1 (address `0x7004`) holds code 4 in bits 23:21. -/
def altRegs17 : Regs := write32 zeroRegs 0x7004 (4 <<< 21)

/-- Device memory in which pin 17 of the region mapped at `0x7000` is an output and
Set word 0 (address `0x701C`) reads back with bit 0 set. -/
def outputRegs17SetBit0 : Regs := write32 outputRegs17 0x701C 1

/-! ## The private structure as an object in memory

The two internal operations receive a pointer to the private structure.  To speak about
what they do to the structure itself, the structure is placed in the same memory as the
device registers: member `m` of the structure at `pdat` occupies the cell at
`pdat + layout m`, where `layout` gives the member offsets chosen by the compiler. -/

/-- The members of `struct _gpio_internals`, in declaration order. -/
inductive Member where
  | _fd
  | _pin_value
  | _1_bit_map_mask
  | _2_bit_map_mask
  | _3_bit_map_mask
  | _write_gpio
  | _set_gpio_fn
  | _fn_sel_reg
  | _pup_pdn_reg
  | _set_reg
  | _clr_reg
  | _lvl_reg
  | _eds_reg
  | _ren_reg
  | _fen_reg
  | _hen_reg
  | _len_reg
  | _aren_reg
  | _afen_reg
  deriving DecidableEq

/-- The value of an `int32_t` held in a memory cell. -/
def toInt32 (n : Nat) : Int :=
  if u32 n < 2 ^ 31 then (u32 n : Int) else (u32 n : Int) - 2 ^ 32

/-- The pointer `__this_gpio_pdat` dereferenced in `mem`: `NULL` (address `0`) gives
`none`, any other address gives the structure whose members are read from the cells
`pdat + layout m` (`uint8_t` and `uint32_t` members at their width; the two function
pointer members can only hold the one function of their type). -/
def privDatAt (layout : Member → Nat) (pdat : Nat) (mem : Regs) : Option _gpio_internals_t :=
  if pdat = 0 then none
  else some
    { _fd := toInt32 (mem (pdat + layout Member._fd))
      _pin_value := u8 (mem (pdat + layout Member._pin_value))
      _1_bit_map_mask := u32 (mem (pdat + layout Member._1_bit_map_mask))
      _2_bit_map_mask := u32 (mem (pdat + layout Member._2_bit_map_mask))
      _3_bit_map_mask := u32 (mem (pdat + layout Member._3_bit_map_mask))
      _write_gpio := WriteGpioPtr.addr__write_gpio
      _set_gpio_fn := SetGpioFnPtr.addr__set_gpio_fn
      _fn_sel_reg := mem (pdat + layout Member._fn_sel_reg)
      _pup_pdn_reg := mem (pdat + layout Member._pup_pdn_reg)
      _set_reg := mem (pdat + layout Member._set_reg)
      _clr_reg := mem (pdat + layout Member._clr_reg)
      _lvl_reg := mem (pdat + layout Member._lvl_reg)
      _eds_reg := mem (pdat + layout Member._eds_reg)
      _ren_reg := mem (pdat + layout Member._ren_reg)
      _fen_reg := mem (pdat + layout Member._fen_reg)
      _hen_reg := mem (pdat + layout Member._hen_reg)
      _len_reg := mem (pdat + layout Member._len_reg)
      _aren_reg := mem (pdat + layout Member._aren_reg)
      _afen_reg := mem (pdat + layout Member._afen_reg) }

/-- `__set_gpio_fn` called with the pointer `pdat` on the memory `mem`, which holds the
private structure as well as the registers.  The body reads every member it uses before
its single store, so it acts as `__set_gpio_fn` on the members read at entry; the store
goes to the address held in the `_fn_sel_reg` member, wherever that points. -/
def __set_gpio_fn_at (layout : Member → Nat) (pdat : Nat) (__fn_sel : FunctionSelect)
    (mem : Regs) : Int × Regs :=
  __set_gpio_fn (privDatAt layout pdat mem) __fn_sel mem

/-- `__write_gpio` called with the pointer `pdat` on the memory `mem`, which holds the
private structure as well as the registers.  The body reads every member it uses before
its single store, which goes to the address held in the `_set_reg` or `_clr_reg`
member. -/
def __write_gpio_at (layout : Member → Nat) (pdat : Nat) (high_low : Nat) (mem : Regs) :
    Int × Regs :=
  __write_gpio (privDatAt layout pdat mem) high_low mem

/-- A call of one of the two internal operations on the line. -/
inductive LineOp where
  | set_fn (fn : FunctionSelect)
  | write (high_low : Nat)

/-- The memory after one call on the structure at `pdat`. -/
def LineOp.exec (layout : Member → Nat) (pdat : Nat) (mem : Regs) : LineOp → Regs
  | .set_fn fn => (__set_gpio_fn_at layout pdat fn mem).2
  | .write high_low => (__write_gpio_at layout pdat high_low mem).2

/-- The memory after a sequence of calls on the structure at `pdat`. -/
def execOps (layout : Member → Nat) (pdat : Nat) (mem : Regs) (ops : List LineOp) : Regs :=
  ops.foldl (LineOp.exec layout pdat) mem

/-- Member offsets of `struct _gpio_internals` with 4-byte `int`, 8-byte pointers and
natural alignment. -/
def lp64Layout : Member → Nat
  | ._fd => 0
  | ._pin_value => 4
  | ._1_bit_map_mask => 8
  | ._2_bit_map_mask => 12
  | ._3_bit_map_mask => 16
  | ._write_gpio => 24
  | ._set_gpio_fn => 32
  | ._fn_sel_reg => 40
  | ._pup_pdn_reg => 48
  | ._set_reg => 56
  | ._clr_reg => 64
  | ._lvl_reg => 72
  | ._eds_reg => 80
  | ._ren_reg => 88
  | ._fen_reg => 96
  | ._hen_reg => 104
  | ._len_reg => 112
  | ._aren_reg => 120
  | ._afen_reg => 128

/-- Memory `mem` with the cell at `addr` holding `value`. -/
def pokeCell (mem : Regs) (addr value : Nat) : Regs :=
  fun a => if a = addr then value else mem a

/-- Memory in which the structure at `0x100000` (layout `lp64Layout`) holds what a request
of pin 17 with descriptor 3 and the region at `0x7000` stores, and in which pin 17 is an
output. -/
def line17Memory : Regs :=
  let d := fill_priv_dat 3 0x7000 17
  [(0, 3), (4, d._pin_value), (8, d._1_bit_map_mask), (12, d._2_bit_map_mask),
   (16, d._3_bit_map_mask), (40, d._fn_sel_reg), (48, d._pup_pdn_reg), (56, d._set_reg),
   (64, d._clr_reg), (72, d._lvl_reg), (80, d._eds_reg), (88, d._ren_reg),
   (96, d._fen_reg), (104, d._hen_reg), (112, d._len_reg), (120, d._aren_reg),
   (128, d._afen_reg)].foldl (fun mem c => pokeCell mem (0x100000 + c.1) c.2) outputRegs17

/-- The memory `line17Memory` with the `_fn_sel_reg` member of the structure aimed at the
structure's own `_1_bit_map_mask` member (address `0x100008`). -/
def line17MemoryAliased : Regs := pokeCell line17Memory (0x100000 + 40) (0x100000 + 8)

/-- The bitwise union of `fieldBits p` over the pins `first, ..., first + count - 1`. -/
def fieldUnion (fieldBits : Nat → Nat) (first count : Nat) : Nat :=
  (List.range' first count).foldl (fun acc p => acc ||| fieldBits p) 0

/-- The register pointers stored in the private data, in the order of the structure. -/
def registerPointers (d : _gpio_internals_t) : List Nat :=
  [d._fn_sel_reg, d._pup_pdn_reg, d._set_reg, d._clr_reg, d._lvl_reg, d._eds_reg,
   d._ren_reg, d._fen_reg, d._hen_reg, d._len_reg, d._aren_reg, d._afen_reg]

end Gpiod

namespace Gpiod

/-! ## Auxiliary facts -/

theorem pin_in_range_eq_zero {p : Nat} (hp : p ≤ 57) : pin_in_range p = 0 := by
  have h : ¬ p > PIN_MAX := by simp only [PIN_MAX]; omega
  simp [pin_in_range, h]

theorem pin_in_range_eq_neg_one {p : Nat} (hp : 57 < p) : pin_in_range p = -1 := by
  have h : p > PIN_MAX := by simp only [PIN_MAX]; omega
  simp [pin_in_range, h]

theorem request_acquire_ok (fd base : Nat) (os : Resources) (line : gpio_line_t) {p : Nat}
    (hp : p ≤ 57) :
    request_acquire { open_fd := some fd, mmap_addr := some base, malloc_ok := true } os line p
      = { req_retval := 0, fd := fd,
          os := { opens := os.opens + 1, mmaps := os.mmaps + 1,
                  open_fds := (fd : Int) :: os.open_fds, mapped := base :: os.mapped,
                  allocated := os.allocated + 1 },
          line := { line with priv_dat := some (fill_priv_dat fd base p) } } := by
  have hfd : ¬ (-1 : Int) = (fd : Int) := by omega
  simp [request_acquire, pin_in_range_eq_zero hp, sys_open, sys_mmap, sys_malloc, hfd]

theorem request_gpio_line_ok (fd base : Nat) (os : Resources) (line : gpio_line_t) {p : Nat}
    (hp : p ≤ 57) :
    request_gpio_line { open_fd := some fd, mmap_addr := some base, malloc_ok := true } os line p
      = (0, { opens := os.opens + 1, mmaps := os.mmaps + 1,
              open_fds := (fd : Int) :: os.open_fds, mapped := base :: os.mapped,
              allocated := os.allocated + 1 },
            { line with priv_dat := some (fill_priv_dat fd base p) }) := by
  simp [request_gpio_line, request_acquire_ok fd base os line hp]

theorem request_gpio_line_bad_pin (sys : SysOutcome) (os : Resources) (line : gpio_line_t)
    {p : Nat} (hp : 57 < p) :
    request_gpio_line sys os line p = (EBAD_PIN, sys_free line.priv_dat os, line) := by
  simp [request_gpio_line, request_acquire, pin_in_range_eq_neg_one hp, EBAD_PIN, sys_close]

theorem tables_at_valid_pin :
    ∀ p, p < 58 →
      tableAt FNSEL_REGS (fn_sel_reg_ind p) = 0x00 + 4 * (p / 10) ∧
      tableAt PUP_PDN_REGS (pup_pdn_reg_ind p) = 0xE4 + 4 * (p / 16) ∧
      tableAt GPSET_REGS (single_bit_reg_ind p) = 0x1C + 4 * (p / 32) ∧
      tableAt GPCLR_REGS (single_bit_reg_ind p) = 0x28 + 4 * (p / 32) ∧
      tableAt GPLEV_REGS (single_bit_reg_ind p) = 0x34 + 4 * (p / 32) ∧
      tableAt GPEDS_REGS (single_bit_reg_ind p) = 0x40 + 4 * (p / 32) := by
  decide

/-! ## C1: pin to register resolution -/

/-- C1: for every pin `p` in `0..57`, a request in which `open`, `mmap` and `malloc`
succeed computes the word indices `(p / 10) mod 6`, `(p / 16) mod 4` and `(p / 32) mod 2`
and stores, relative to the mapped base, the register offsets `0x00 + 4 * (p / 10)`
(FunctionSelect), `0xE4 + 4 * (p / 16)` (PullConfig), `0x1C + 4 * (p / 32)` (Set),
`0x28 + 4 * (p / 32)` (Clear), `0x34 + 4 * (p / 32)` (Level) and
`0x40 + 4 * (p / 32)` (EventStatus). -/
theorem request_gpio_line_resolution (p fd base : Nat) (os : Resources) (line : gpio_line_t)
    (hp : p ≤ 57) :
    fn_sel_reg_ind p = (p / 10) % 6 ∧
    pup_pdn_reg_ind p = (p / 16) % 4 ∧
    single_bit_reg_ind p = (p / 32) % 2 ∧
    ∃ d : _gpio_internals_t,
      (request_gpio_line { open_fd := some fd, mmap_addr := some base, malloc_ok := true }
          os line p).2.2.priv_dat = some d ∧
      d._fn_sel_reg = base + tableAt FNSEL_REGS ((p / 10) % 6) ∧
      d._pup_pdn_reg = base + tableAt PUP_PDN_REGS ((p / 16) % 4) ∧
      d._set_reg = base + tableAt GPSET_REGS ((p / 32) % 2) ∧
      d._clr_reg = base + tableAt GPCLR_REGS ((p / 32) % 2) ∧
      d._lvl_reg = base + tableAt GPLEV_REGS ((p / 32) % 2) ∧
      d._eds_reg = base + tableAt GPEDS_REGS ((p / 32) % 2) ∧
      d._fn_sel_reg = base + (0x00 + 4 * (p / 10)) ∧
      d._pup_pdn_reg = base + (0xE4 + 4 * (p / 16)) ∧
      d._set_reg = base + (0x1C + 4 * (p / 32)) ∧
      d._clr_reg = base + (0x28 + 4 * (p / 32)) ∧
      d._lvl_reg = base + (0x34 + 4 * (p / 32)) ∧
      d._eds_reg = base + (0x40 + 4 * (p / 32)) := by
  obtain ⟨h1, h2, h3, h4, h5, h6⟩ := tables_at_valid_pin p (by omega)
  refine ⟨rfl, rfl, rfl, fill_priv_dat fd base p, ?_, ?_⟩
  · rw [request_gpio_line_ok fd base os line hp]
  · refine ⟨rfl, rfl, rfl, rfl, rfl, rfl, ?_, ?_, ?_, ?_, ?_, ?_⟩
    · show base + tableAt FNSEL_REGS (fn_sel_reg_ind p) = _
      rw [h1]
    · show base + tableAt PUP_PDN_REGS (pup_pdn_reg_ind p) = _
      rw [h2]
    · show base + tableAt GPSET_REGS (single_bit_reg_ind p) = _
      rw [h3]
    · show base + tableAt GPCLR_REGS (single_bit_reg_ind p) = _
      rw [h4]
    · show base + tableAt GPLEV_REGS (single_bit_reg_ind p) = _
      rw [h5]
    · show base + tableAt GPEDS_REGS (single_bit_reg_ind p) = _
      rw [h6]

/-- C1 at pin 49 with the region mapped at `0x7000`: word indices 4, 3 and 1. -/
theorem request_gpio_line_resolution_witness :
    49 ≤ 57 ∧
    (fn_sel_reg_ind 49 = (49 / 10) % 6 ∧
    pup_pdn_reg_ind 49 = (49 / 16) % 4 ∧
    single_bit_reg_ind 49 = (49 / 32) % 2 ∧
    ∃ d : _gpio_internals_t,
      (request_gpio_line { open_fd := some 3, mmap_addr := some 0x7000, malloc_ok := true }
          noResources freshLine 49).2.2.priv_dat = some d ∧
      d._fn_sel_reg = 0x7000 + tableAt FNSEL_REGS ((49 / 10) % 6) ∧
      d._pup_pdn_reg = 0x7000 + tableAt PUP_PDN_REGS ((49 / 16) % 4) ∧
      d._set_reg = 0x7000 + tableAt GPSET_REGS ((49 / 32) % 2) ∧
      d._clr_reg = 0x7000 + tableAt GPCLR_REGS ((49 / 32) % 2) ∧
      d._lvl_reg = 0x7000 + tableAt GPLEV_REGS ((49 / 32) % 2) ∧
      d._eds_reg = 0x7000 + tableAt GPEDS_REGS ((49 / 32) % 2) ∧
      d._fn_sel_reg = 0x7000 + (0x00 + 4 * (49 / 10)) ∧
      d._pup_pdn_reg = 0x7000 + (0xE4 + 4 * (49 / 16)) ∧
      d._set_reg = 0x7000 + (0x1C + 4 * (49 / 32)) ∧
      d._clr_reg = 0x7000 + (0x28 + 4 * (49 / 32)) ∧
      d._lvl_reg = 0x7000 + (0x34 + 4 * (49 / 32)) ∧
      d._eds_reg = 0x7000 + (0x40 + 4 * (49 / 32))) :=
  ⟨by decide, request_gpio_line_resolution 49 3 0x7000 noResources freshLine (by decide)⟩

/-! ## C2: out-of-range pins -/

/-- C2: `pin_in_range p` fails (returns `-1`) exactly when `p > 57` and returns `0`
otherwise; `request_gpio_line` returns `EBAD_PIN` for `p > 57` whatever `open`, `mmap`
and `malloc` would answer, with no descriptor opened and no region mapped; a request of
pin 57 returns `0` when the three services succeed; `__set_gpio_fn` and `__write_gpio`
return `EBAD_PIN` on private data whose stored pin exceeds 57. -/
theorem out_of_range_pin_rejected (p : Nat) (sys : SysOutcome) (os : Resources)
    (line : gpio_line_t) (d : _gpio_internals_t) (fn : FunctionSelect) (v : Nat)
    (regs : Regs) :
    (pin_in_range p = -1 ↔ 57 < p) ∧
    (pin_in_range p = 0 ↔ p ≤ 57) ∧
    (57 < p →
      (request_gpio_line sys os line p).1 = EBAD_PIN ∧
      (request_gpio_line sys os line p).2.1.opens = os.opens ∧
      (request_gpio_line sys os line p).2.1.mmaps = os.mmaps ∧
      (request_gpio_line sys os line p).2.1.open_fds = os.open_fds ∧
      (request_gpio_line sys os line p).2.1.mapped = os.mapped) ∧
    (∀ fd base : Nat,
      (request_gpio_line { open_fd := some fd, mmap_addr := some base, malloc_ok := true }
        os line 57).1 = 0) ∧
    (57 < d._pin_value →
      (__set_gpio_fn (some d) fn regs).1 = EBAD_PIN ∧
      (__write_gpio (some d) v regs).1 = EBAD_PIN) := by
  refine ⟨?_, ?_, ?_, ?_, ?_⟩
  · constructor
    · intro h
      by_contra hc
      rw [pin_in_range_eq_zero (by omega)] at h
      exact absurd h (by decide)
    · exact fun h => pin_in_range_eq_neg_one h
  · constructor
    · intro h
      by_contra hc
      rw [pin_in_range_eq_neg_one (by omega)] at h
      exact absurd h (by decide)
    · exact fun h => pin_in_range_eq_zero h
  · intro hp
    rw [request_gpio_line_bad_pin sys os line hp]
    cases hpd : line.priv_dat <;> simp [sys_free]
  · intro fd base
    rw [request_gpio_line_ok fd base os line (le_refl 57)]
  · intro hd
    simp [__set_gpio_fn, __write_gpio, pin_in_range_eq_neg_one hd]

/-- C2 at pin 58 and at private data holding pin 200, with all services ready to
succeed: the request returns `-2` and the resources stay empty. -/
theorem out_of_range_pin_rejected_witness :
    pin_in_range 58 = -1 ∧
    (request_gpio_line (sysOk 0x7000) noResources freshLine 58).1 = -2 ∧
    (request_gpio_line (sysOk 0x7000) noResources freshLine 58).2.1.opens = 0 ∧
    (request_gpio_line (sysOk 0x7000) noResources freshLine 58).2.1.mmaps = 0 ∧
    (request_gpio_line (sysOk 0x7000) noResources freshLine 58).2.1.open_fds = [] ∧
    (request_gpio_line (sysOk 0x7000) noResources freshLine 58).2.1.mapped = [] ∧
    (request_gpio_line (sysOk 0x7000) noResources freshLine 57).1 = 0 ∧
    (__set_gpio_fn (some { fill_priv_dat 3 0x7000 17 with _pin_value := 200 })
      FunctionSelect.OUTPUT zeroRegs).1 = -2 ∧
    (__write_gpio (some { fill_priv_dat 3 0x7000 17 with _pin_value := 200 })
      1 zeroRegs).1 = -2 :=
  have h := out_of_range_pin_rejected 58 (sysOk 0x7000) noResources freshLine
    { fill_priv_dat 3 0x7000 17 with _pin_value := 200 } FunctionSelect.OUTPUT 1 zeroRegs
  ⟨h.1.2 (by decide), (h.2.2.1 (by decide)).1, (h.2.2.1 (by decide)).2.1,
    (h.2.2.1 (by decide)).2.2.1, (h.2.2.1 (by decide)).2.2.2.1,
    (h.2.2.1 (by decide)).2.2.2.2, h.2.2.2.1 3 0x7000,
    (h.2.2.2.2 (by decide)).1, (h.2.2.2.2 (by decide)).2⟩

/-! ## The two internal operations, branch by branch -/

theorem fn_sel_shift_eq (p : Nat) : u32 ((p % BASE_TEN) * 3) = (p % 10) * 3 := by
  have h : (p % 10) * 3 < 2 ^ 32 := by
    have := Nat.mod_lt p (by decide : 10 > 0)
    omega
  simp only [u32, BASE_TEN]
  exact Nat.mod_eq_of_lt h

theorem setclr_shift_eq (p : Nat) : u32 (p % PIN_MAX_BIT) = p % 32 := by
  have h : p % 32 < 2 ^ 32 := by
    have := Nat.mod_lt p (by decide : 32 > 0)
    omega
  simp only [u32, PIN_MAX_BIT]
  exact Nat.mod_eq_of_lt h

theorem write_gpio_branches (d : _gpio_internals_t) (v : Nat) (regs : Regs)
    (hp : d._pin_value ≤ 57) :
    (liveFunction d regs ≠ 1 ∧ __write_gpio (some d) v regs = (EPIN_CONFIG, regs)) ∨
    (liveFunction d regs = 1 ∧ v = 1 ∧
      __write_gpio (some d) v regs
        = (0, write32 regs d._set_reg (strobeWord d regs d._set_reg))) ∨
    (liveFunction d regs = 1 ∧ v = 0 ∧
      __write_gpio (some d) v regs
        = (0, write32 regs d._clr_reg (strobeWord d regs d._clr_reg))) ∨
    (liveFunction d regs = 1 ∧ v ≠ 1 ∧ v ≠ 0 ∧
      __write_gpio (some d) v regs = (EOUT_OF_RANGE, regs)) := by
  have hr : ¬ (-1 : Int) = pin_in_range d._pin_value := by
    rw [pin_in_range_eq_zero hp]; decide
  by_cases hf : liveFunction d regs = 1
  · have hf2 : ¬ FunctionSelect.OUTPUT.val ≠
        ((read32 regs d._fn_sel_reg >>> ((d._pin_value % 10) * 3)) &&& THREE_BIT_MASK) := by
      simp only [liveFunction] at hf
      simp [FunctionSelect.val, THREE_BIT_MASK, hf]
    by_cases h1 : v = 1
    · right; left
      refine ⟨hf, h1, ?_⟩
      subst h1
      simp only [__write_gpio, hr, fn_sel_shift_eq, setclr_shift_eq, hf2, if_false, if_true,
        strobeWord]
    · by_cases h0 : v = 0
      · right; right; left
        refine ⟨hf, h0, ?_⟩
        subst h0
        simp only [__write_gpio, hr, fn_sel_shift_eq, setclr_shift_eq, hf2, if_false, if_true,
          strobeWord]
        simp
      · right; right; right
        refine ⟨hf, h1, h0, ?_⟩
        have h1n : ¬ 1 = v := fun h => h1 h.symm
        have h0n : ¬ 0 = v := fun h => h0 h.symm
        simp only [__write_gpio, hr, fn_sel_shift_eq, hf2, if_false, h1n, h0n]
  · left
    refine ⟨hf, ?_⟩
    have hf2 : FunctionSelect.OUTPUT.val ≠
        ((read32 regs d._fn_sel_reg >>> ((d._pin_value % 10) * 3)) &&& THREE_BIT_MASK) := by
      simp only [liveFunction] at hf
      simp only [FunctionSelect.val, THREE_BIT_MASK]
      exact fun h => hf h.symm
    simp only [__write_gpio, hr, fn_sel_shift_eq, if_false]
    exact if_pos hf2

theorem set_gpio_fn_internal_branches (d : _gpio_internals_t) (fn : FunctionSelect)
    (regs : Regs) :
    (57 < d._pin_value ∧ __set_gpio_fn (some d) fn regs = (EBAD_PIN, regs)) ∨
    (d._pin_value ≤ 57 ∧ (__set_gpio_fn (some d) fn regs).1 = 0) := by
  by_cases hp : d._pin_value ≤ 57
  · right
    refine ⟨hp, ?_⟩
    have hr : ¬ (-1 : Int) = pin_in_range d._pin_value := by
      rw [pin_in_range_eq_zero hp]; decide
    simp only [__set_gpio_fn, hr, if_false]
  · left
    have hp2 : 57 < d._pin_value := by omega
    refine ⟨hp2, ?_⟩
    simp [__set_gpio_fn, pin_in_range_eq_neg_one hp2]

theorem requested_registers_distinct (fd base : Nat) {p : Nat} (hp : p ≤ 57) :
    (fill_priv_dat fd base p)._set_reg ≠ (fill_priv_dat fd base p)._clr_reg ∧
    (fill_priv_dat fd base p)._set_reg ≠ (fill_priv_dat fd base p)._lvl_reg ∧
    (fill_priv_dat fd base p)._set_reg ≠ (fill_priv_dat fd base p)._fn_sel_reg ∧
    (fill_priv_dat fd base p)._clr_reg ≠ (fill_priv_dat fd base p)._lvl_reg ∧
    (fill_priv_dat fd base p)._clr_reg ≠ (fill_priv_dat fd base p)._fn_sel_reg := by
  obtain ⟨h1, -, h3, h4, h5, -⟩ := tables_at_valid_pin p (by omega)
  simp only [fill_priv_dat, h1, h3, h4, h5]
  omega

theorem strobeWord_testBit (d : _gpio_internals_t) (regs : Regs) (target : Nat) :
    (u32 (strobeWord d regs target)).testBit (d._pin_value % 32) = true := by
  have hlt : d._pin_value % 32 < 32 := Nat.mod_lt _ (by decide)
  simp only [u32, strobeWord, Nat.testBit_mod_two_pow, Nat.testBit_or, Nat.testBit_shiftLeft,
    hlt]
  simp

/-! ## C3, C4: the public function-select operation -/

/-- C3 evaluated on the line requested for pin 17 (region at `0x7000`), every register
zero: `set_gpio_fn(line, OUTPUT)` returns `1` and the FunctionSelect field of pin 17
(bits 23:21 of the word at `0x7004`) still reads `0`, not `OUTPUT`; the internal
`__set_gpio_fn` on the same input returns `0` and leaves the field at `1`. -/
theorem set_gpio_fn_does_not_select_function :
    (set_gpio_fn (requestedLine 0x7000 17) FunctionSelect.OUTPUT zeroRegs).1 = 1 ∧
    (read32 (set_gpio_fn (requestedLine 0x7000 17) FunctionSelect.OUTPUT zeroRegs).2 0x7004
        >>> 21) &&& 7 = 0 ∧
    (__set_gpio_fn (requestedLine 0x7000 17).priv_dat FunctionSelect.OUTPUT zeroRegs).1 = 0 ∧
    (read32 (__set_gpio_fn (requestedLine 0x7000 17).priv_dat FunctionSelect.OUTPUT
        zeroRegs).2 0x7004 >>> 21) &&& 7 = 1 := by
  decide

/-- C4 evaluated on the line requested for pin 17 (region at `0x7000`), every register
zero: `set_gpio_fn(line, OUTPUT)` returns `1`, the following `write_gpio(line, 1)`
returns `1`, and bit 17 of Set word 0 (address `0x701C`) is still clear. -/
theorem end_to_end_pin17_not_driven :
    (set_gpio_fn (requestedLine 0x7000 17) FunctionSelect.OUTPUT zeroRegs).1 = 1 ∧
    (write_gpio (requestedLine 0x7000 17) 1
      (set_gpio_fn (requestedLine 0x7000 17) FunctionSelect.OUTPUT zeroRegs).2).1 = 1 ∧
    (read32 (write_gpio (requestedLine 0x7000 17) 1
      (set_gpio_fn (requestedLine 0x7000 17) FunctionSelect.OUTPUT zeroRegs).2).2
        0x701C).testBit 17 = false := by
  decide

/-! ## C5 to C8: the level write -/

/-- C5: on private data with a valid pin, `__write_gpio` returns `EPIN_CONFIG` exactly
when the 3-bit field `(word >> ((pin mod 10) * 3)) & 7` of the FunctionSelect word read
from device memory is not `OUTPUT`, and then leaves device memory as it was; in
particular it returns `EPIN_CONFIG` when the field reads `INPUT`. -/
theorem write_gpio_requires_live_output (d : _gpio_internals_t) (v : Nat) (regs : Regs)
    (hp : d._pin_value ≤ 57) :
    ((__write_gpio (some d) v regs).1 = EPIN_CONFIG ↔
      (read32 regs d._fn_sel_reg >>> ((d._pin_value % 10) * 3)) &&& 7
        ≠ FunctionSelect.OUTPUT.val) ∧
    ((read32 regs d._fn_sel_reg >>> ((d._pin_value % 10) * 3)) &&& 7
        ≠ FunctionSelect.OUTPUT.val →
      __write_gpio (some d) v regs = (EPIN_CONFIG, regs)) ∧
    ((read32 regs d._fn_sel_reg >>> ((d._pin_value % 10) * 3)) &&& 7
        = FunctionSelect.INPUT.val →
      (__write_gpio (some d) v regs).1 = EPIN_CONFIG) := by
  have hb := write_gpio_branches d v regs hp
  simp only [liveFunction] at hb
  simp only [FunctionSelect.val]
  rcases hb with ⟨hf, h⟩ | ⟨hf, -, h⟩ | ⟨hf, -, h⟩ | ⟨hf, -, -, h⟩
  · refine ⟨⟨fun _ => hf, fun _ => by rw [h]⟩, fun _ => h, fun _ => by rw [h]⟩
  · refine ⟨⟨fun hc => ?_, fun hc => absurd hf hc⟩, fun hc => absurd hf hc, fun hc => ?_⟩
    · rw [h] at hc; exact absurd (show (0 : Int) = EPIN_CONFIG from hc) (by decide)
    · rw [hf] at hc; exact absurd hc (by decide)
  · refine ⟨⟨fun hc => ?_, fun hc => absurd hf hc⟩, fun hc => absurd hf hc, fun hc => ?_⟩
    · rw [h] at hc; exact absurd (show (0 : Int) = EPIN_CONFIG from hc) (by decide)
    · rw [hf] at hc; exact absurd hc (by decide)
  · refine ⟨⟨fun hc => ?_, fun hc => absurd hf hc⟩, fun hc => absurd hf hc, fun hc => ?_⟩
    · rw [h] at hc; exact absurd (show EOUT_OF_RANGE = EPIN_CONFIG from hc) (by decide)
    · rw [hf] at hc; exact absurd hc (by decide)

/-- C5 on the line of pin 17 with every register zero (function `INPUT`): the level
write returns `-6`. -/
theorem write_gpio_requires_live_output_witness :
    (fill_priv_dat 3 0x7000 17)._pin_value ≤ 57 ∧
    (read32 zeroRegs (fill_priv_dat 3 0x7000 17)._fn_sel_reg
        >>> (((fill_priv_dat 3 0x7000 17)._pin_value % 10) * 3)) &&& 7
      = FunctionSelect.INPUT.val ∧
    (__write_gpio (some (fill_priv_dat 3 0x7000 17)) 1 zeroRegs).1 = EPIN_CONFIG :=
  ⟨by decide, by decide,
    (write_gpio_requires_live_output (fill_priv_dat 3 0x7000 17) 1 zeroRegs
      (by decide)).2.2 (by decide)⟩

/-- C6: on a requested line (valid pin `p`, region at `base`) whose live function is
`OUTPUT`, `__write_gpio` with a value in `{0, 1}` returns `0` and changes one word only:
the Set word of the pin for value `1`, the Clear word for value `0`.  Every other
address keeps its content, in particular the other strobe word, the Level word and the
FunctionSelect word, and bit `p mod 32` of the written word is `1`. -/
theorem write_gpio_writes_one_strobe_word (fd base p v : Nat) (regs : Regs) (hp : p ≤ 57)
    (hout : liveFunction (fill_priv_dat fd base p) regs = FunctionSelect.OUTPUT.val)
    (hv : v = 1 ∨ v = 0) :
    (__write_gpio (some (fill_priv_dat fd base p)) v regs).1 = 0 ∧
    (∀ a : Nat,
      a ≠ (if v = 1 then (fill_priv_dat fd base p)._set_reg
            else (fill_priv_dat fd base p)._clr_reg) →
      (__write_gpio (some (fill_priv_dat fd base p)) v regs).2 a = regs a) ∧
    (__write_gpio (some (fill_priv_dat fd base p)) v regs).2
        (if v = 1 then (fill_priv_dat fd base p)._clr_reg
          else (fill_priv_dat fd base p)._set_reg)
      = regs (if v = 1 then (fill_priv_dat fd base p)._clr_reg
          else (fill_priv_dat fd base p)._set_reg) ∧
    (__write_gpio (some (fill_priv_dat fd base p)) v regs).2 (fill_priv_dat fd base p)._lvl_reg
      = regs (fill_priv_dat fd base p)._lvl_reg ∧
    (__write_gpio (some (fill_priv_dat fd base p)) v regs).2
        (fill_priv_dat fd base p)._fn_sel_reg
      = regs (fill_priv_dat fd base p)._fn_sel_reg ∧
    ((__write_gpio (some (fill_priv_dat fd base p)) v regs).2
        (if v = 1 then (fill_priv_dat fd base p)._set_reg
          else (fill_priv_dat fd base p)._clr_reg)).testBit (p % 32) = true := by
  obtain ⟨hsc, hsl, hsf, hcl, hcf⟩ := requested_registers_distinct fd base hp
  have hpin : (fill_priv_dat fd base p)._pin_value = p := rfl
  have hb := write_gpio_branches (fill_priv_dat fd base p) v regs (by rw [hpin]; exact hp)
  have hout1 : liveFunction (fill_priv_dat fd base p) regs = 1 := hout
  have hbit := fun t => strobeWord_testBit (fill_priv_dat fd base p) regs t
  rw [hpin] at hbit
  rcases hb with ⟨hf, -⟩ | ⟨-, h1, h⟩ | ⟨-, h0, h⟩ | ⟨-, h1, h0, -⟩
  · exact absurd hout1 hf
  · subst h1
    rw [h]
    refine ⟨rfl, fun a ha => ?_, ?_, ?_, ?_, ?_⟩
    · simp only [if_true] at ha
      simp [write32, ha]
    · simp [write32, hsc.symm]
    · simp [write32, hsl.symm]
    · simp [write32, hsf.symm]
    · simpa [write32] using hbit _
  · subst h0
    rw [h]
    refine ⟨rfl, fun a ha => ?_, ?_, ?_, ?_, ?_⟩
    · have ha2 : a ≠ (fill_priv_dat fd base p)._clr_reg := by simpa using ha
      simp [write32, ha2]
    · simp [write32, hsc]
    · simp [write32, hcl.symm]
    · simp [write32, hcf.symm]
    · simpa [write32] using hbit _
  · rcases hv with hv | hv
    · exact absurd hv h1
    · exact absurd hv h0

/-- C6 on the line of pin 17 (region at `0x7000`) configured as an output, value `1`. -/
theorem write_gpio_writes_one_strobe_word_witness :
    17 ≤ 57 ∧
    liveFunction (fill_priv_dat 3 0x7000 17) outputRegs17 = FunctionSelect.OUTPUT.val ∧
    (__write_gpio (some (fill_priv_dat 3 0x7000 17)) 1 outputRegs17).1 = 0 ∧
    ((__write_gpio (some (fill_priv_dat 3 0x7000 17)) 1 outputRegs17).2
        (if 1 = 1 then (fill_priv_dat 3 0x7000 17)._set_reg
          else (fill_priv_dat 3 0x7000 17)._clr_reg)).testBit (17 % 32) = true :=
  have h := write_gpio_writes_one_strobe_word 3 0x7000 17 1 outputRegs17 (by decide)
    (by decide) (Or.inl rfl)
  ⟨by decide, by decide, h.1, h.2.2.2.2.2⟩

/-- C7 as stated fails on the line requested for pin 17 with every register zero
(function `INPUT`): the value `2` is outside `{0, 1}` and the level write returns
`EPIN_CONFIG`, which differs from `EOUT_OF_RANGE`. -/
theorem write_gpio_value_two_on_input_pin :
    (requestedLine 0x7000 17).priv_dat = some (fill_priv_dat 3 0x7000 17) ∧
    (fill_priv_dat 3 0x7000 17)._pin_value ≤ 57 ∧
    (2 : Nat) ≠ 0 ∧ (2 : Nat) ≠ 1 ∧
    (__write_gpio (requestedLine 0x7000 17).priv_dat 2 zeroRegs).1 = EPIN_CONFIG ∧
    (__write_gpio (requestedLine 0x7000 17).priv_dat 2 zeroRegs).1 ≠ EOUT_OF_RANGE := by
  decide

/-- C7 amended: on private data with a valid pin and for a value outside `{0, 1}`,
`__write_gpio` returns `EOUT_OF_RANGE` when the live function is `OUTPUT` and
`EPIN_CONFIG` when it is not, and in both cases leaves device memory as it was. -/
theorem write_gpio_out_of_range_value (d : _gpio_internals_t) (v : Nat) (regs : Regs)
    (hp : d._pin_value ≤ 57) (hv0 : v ≠ 0) (hv1 : v ≠ 1) :
    (liveFunction d regs = FunctionSelect.OUTPUT.val →
      __write_gpio (some d) v regs = (EOUT_OF_RANGE, regs)) ∧
    (liveFunction d regs ≠ FunctionSelect.OUTPUT.val →
      __write_gpio (some d) v regs = (EPIN_CONFIG, regs)) := by
  constructor
  · intro hout
    have hout1 : liveFunction d regs = 1 := hout
    rcases write_gpio_branches d v regs hp with
      ⟨hf, -⟩ | ⟨-, h1, -⟩ | ⟨-, h0, -⟩ | ⟨-, -, -, h⟩
    · exact absurd hout1 hf
    · exact absurd h1 hv1
    · exact absurd h0 hv0
    · exact h
  · intro hnot
    have hnot1 : liveFunction d regs ≠ 1 := hnot
    rcases write_gpio_branches d v regs hp with
      ⟨-, h⟩ | ⟨hf, -, -⟩ | ⟨hf, -, -⟩ | ⟨hf, -, -, -⟩
    · exact h
    · exact absurd hf hnot1
    · exact absurd hf hnot1
    · exact absurd hf hnot1

/-- C7 amended, on the line of pin 17 with value `2`: `EOUT_OF_RANGE` when the pin is
configured as an output, `EPIN_CONFIG` when every register is zero. -/
theorem write_gpio_out_of_range_value_witness :
    (fill_priv_dat 3 0x7000 17)._pin_value ≤ 57 ∧
    liveFunction (fill_priv_dat 3 0x7000 17) outputRegs17 = FunctionSelect.OUTPUT.val ∧
    __write_gpio (some (fill_priv_dat 3 0x7000 17)) 2 outputRegs17
      = (EOUT_OF_RANGE, outputRegs17) ∧
    liveFunction (fill_priv_dat 3 0x7000 17) zeroRegs ≠ FunctionSelect.OUTPUT.val ∧
    __write_gpio (some (fill_priv_dat 3 0x7000 17)) 2 zeroRegs = (EPIN_CONFIG, zeroRegs) :=
  ⟨by decide, by decide,
    (write_gpio_out_of_range_value (fill_priv_dat 3 0x7000 17) 2 outputRegs17 (by decide)
      (by decide) (by decide)).1 (by decide),
    by decide,
    (write_gpio_out_of_range_value (fill_priv_dat 3 0x7000 17) 2 zeroRegs (by decide)
      (by decide) (by decide)).2 (by decide)⟩

/-- C8: whenever `__write_gpio` or `__set_gpio_fn` returns a non-zero status, for any
private-data pointer (`NULL` included), argument and device memory, device memory after
the call equals device memory before it, and the status is one of `EPDAT_NULL`,
`EBAD_PIN`, `EPIN_CONFIG`, `EOUT_OF_RANGE`. -/
theorem no_register_write_on_failure (pd : Option _gpio_internals_t) (v : Nat)
    (fn : FunctionSelect) (regs : Regs) :
    ((__write_gpio pd v regs).1 ≠ 0 →
      (__write_gpio pd v regs).2 = regs ∧
      ((__write_gpio pd v regs).1 = EPDAT_NULL ∨ (__write_gpio pd v regs).1 = EBAD_PIN ∨
        (__write_gpio pd v regs).1 = EPIN_CONFIG ∨
        (__write_gpio pd v regs).1 = EOUT_OF_RANGE)) ∧
    ((__set_gpio_fn pd fn regs).1 ≠ 0 →
      (__set_gpio_fn pd fn regs).2 = regs ∧
      ((__set_gpio_fn pd fn regs).1 = EPDAT_NULL ∨
        (__set_gpio_fn pd fn regs).1 = EBAD_PIN)) := by
  cases pd with
  | none => exact ⟨fun _ => ⟨rfl, Or.inl rfl⟩, fun _ => ⟨rfl, Or.inl rfl⟩⟩
  | some d =>
    constructor
    · intro hne
      by_cases hp : d._pin_value ≤ 57
      · rcases write_gpio_branches d v regs hp with
          ⟨-, h⟩ | ⟨-, -, h⟩ | ⟨-, -, h⟩ | ⟨-, -, -, h⟩
        · rw [h]; exact ⟨rfl, Or.inr (Or.inr (Or.inl rfl))⟩
        · rw [h] at hne; exact absurd rfl hne
        · rw [h] at hne; exact absurd rfl hne
        · rw [h]; exact ⟨rfl, Or.inr (Or.inr (Or.inr rfl))⟩
      · have hp2 : 57 < d._pin_value := by omega
        have h : __write_gpio (some d) v regs = (EBAD_PIN, regs) := by
          simp [__write_gpio, pin_in_range_eq_neg_one hp2]
        rw [h]; exact ⟨rfl, Or.inr (Or.inl rfl)⟩
    · intro hne
      rcases set_gpio_fn_internal_branches d fn regs with ⟨-, h⟩ | ⟨-, h⟩
      · rw [h]; exact ⟨rfl, Or.inr rfl⟩
      · exact absurd h hne

/-- C8 on the line of pin 17 with every register zero and value `1` (the write is
refused with `EPIN_CONFIG`), and on private data holding pin 200 (the function select
is refused with `EBAD_PIN`). -/
theorem no_register_write_on_failure_witness :
    (__write_gpio (some (fill_priv_dat 3 0x7000 17)) 1 zeroRegs).1 ≠ 0 ∧
    (__write_gpio (some (fill_priv_dat 3 0x7000 17)) 1 zeroRegs).2 = zeroRegs ∧
    (__set_gpio_fn (some { fill_priv_dat 3 0x7000 17 with _pin_value := 200 })
      FunctionSelect.OUTPUT zeroRegs).1 ≠ 0 ∧
    (__set_gpio_fn (some { fill_priv_dat 3 0x7000 17 with _pin_value := 200 })
      FunctionSelect.OUTPUT zeroRegs).2 = zeroRegs :=
  ⟨by decide,
    ((no_register_write_on_failure (some (fill_priv_dat 3 0x7000 17)) 1
      FunctionSelect.OUTPUT zeroRegs).1 (by decide)).1,
    by decide,
    ((no_register_write_on_failure
      (some { fill_priv_dat 3 0x7000 17 with _pin_value := 200 }) 1
      FunctionSelect.OUTPUT zeroRegs).2 (by decide)).1⟩

/-! ## C9, C10: what the public operations return -/

/-- C9 evaluated on the line requested for pin 17: three failures with distinct
internal statuses, `EPIN_CONFIG` (every register zero, value `1`), `EOUT_OF_RANGE`
(pin configured as output, value `2`) and `EBAD_PIN` (stored pin overwritten with 200),
all come back from `write_gpio` as the same value `1`. -/
theorem write_gpio_collapses_error_codes :
    (__write_gpio (requestedLine 0x7000 17).priv_dat 1 zeroRegs).1 = -6 ∧
    (write_gpio (requestedLine 0x7000 17) 1 zeroRegs).1 = 1 ∧
    (__write_gpio (requestedLine 0x7000 17).priv_dat 2 outputRegs17).1 = -7 ∧
    (write_gpio (requestedLine 0x7000 17) 2 outputRegs17).1 = 1 ∧
    (__write_gpio (some { fill_priv_dat 3 0x7000 17 with _pin_value := 200 })
      1 zeroRegs).1 = -2 ∧
    (write_gpio { gpio_name := "gpio",
                  priv_dat := some { fill_priv_dat 3 0x7000 17 with _pin_value := 200 } }
      1 zeroRegs).1 = 1 := by
  decide

/-- C10 evaluated on a line whose private data is `NULL`: for every name, argument and
device memory, `write_gpio` and `set_gpio_fn` return `0`, the success value, and not
`EPDAT_NULL`, while the internal `__write_gpio` and `__set_gpio_fn` given the `NULL`
pointer return `EPDAT_NULL`; device memory is unchanged. -/
theorem public_operations_on_null_line (name : String) (v : Nat) (sel : FunctionSelect)
    (regs : Regs) :
    write_gpio { gpio_name := name, priv_dat := none } v regs = (0, regs) ∧
    set_gpio_fn { gpio_name := name, priv_dat := none } sel regs = (0, regs) ∧
    (write_gpio { gpio_name := name, priv_dat := none } v regs).1 ≠ EPDAT_NULL ∧
    (set_gpio_fn { gpio_name := name, priv_dat := none } sel regs).1 ≠ EPDAT_NULL ∧
    __write_gpio none v regs = (EPDAT_NULL, regs) ∧
    __set_gpio_fn none sel regs = (EPDAT_NULL, regs) := by
  refine ⟨rfl, rfl, ?_, ?_, rfl, rfl⟩
  · show (0 : Int) ≠ EPDAT_NULL
    decide
  · show (0 : Int) ≠ EPDAT_NULL
    decide

/-! ## Bit-level facts about the read-modify-write words -/

theorem testBit_u32 (x i : Nat) : (u32 x).testBit i = (decide (i < 32) && x.testBit i) := by
  simp only [u32, Nat.testBit_mod_two_pow]

theorem u32_eq_self {x : Nat} (h : x < 2 ^ 32) : u32 x = x := Nat.mod_eq_of_lt h

theorem u32_lt (x : Nat) : u32 x < 2 ^ 32 := Nat.mod_lt _ (by decide)

theorem u32_idem (x : Nat) : u32 (u32 x) = u32 x := u32_eq_self (u32_lt x)

/-- A value below `2 ^ w` shifted left by `s` has no bit outside positions
`s .. s + w - 1`. -/
theorem testBit_shiftLeft_outside {x w s j : Nat} (hx : x < 2 ^ w) (h : j < s ∨ s + w ≤ j) :
    (x <<< s).testBit j = false := by
  rw [Nat.testBit_shiftLeft]
  rcases h with h | h
  · have : ¬ j ≥ s := by omega
    simp [this]
  · have hle : 2 ^ w ≤ 2 ^ (j - s) := Nat.pow_le_pow_right (by decide) (by omega)
    rw [Nat.testBit_lt_two_pow (lt_of_lt_of_le hx hle)]
    simp

theorem FunctionSelect.val_lt (fn : FunctionSelect) : fn.val < 2 ^ 3 := by
  cases fn <;> decide

/-- Writing the same read-modify-write word a second time changes nothing: the
identity behind both `__set_gpio_fn` and `__write_gpio`. -/
theorem rmw_idempotent (o m c f : Nat) :
    u32 (((u32 (u32 (((u32 o &&& m) &&& u32 (c ^^^ m)) ||| u32 f)) &&& m) &&& u32 (c ^^^ m))
        ||| u32 f)
      = u32 (((u32 o &&& m) &&& u32 (c ^^^ m)) ||| u32 f) := by
  apply Nat.eq_of_testBit_eq
  intro i
  simp only [testBit_u32, Nat.testBit_or, Nat.testBit_and, Nat.testBit_xor]
  cases decide (i < 32) <;> cases o.testBit i <;> cases m.testBit i <;> cases c.testBit i <;>
    cases f.testBit i <;> rfl

theorem set_gpio_fn_eq (d : _gpio_internals_t) (fn : FunctionSelect) (regs : Regs)
    (hp : d._pin_value ≤ 57) :
    __set_gpio_fn (some d) fn regs = (0, write32 regs d._fn_sel_reg (fnSelWord d fn regs)) := by
  have hr : ¬ (-1 : Int) = pin_in_range d._pin_value := by
    rw [pin_in_range_eq_zero hp]; decide
  simp only [__set_gpio_fn, hr, if_false, fn_sel_shift_eq, fnSelWord]

theorem write32_same (regs : Regs) (a v : Nat) : write32 regs a v a = u32 v := by
  simp [write32]

theorem write32_other (regs : Regs) {a b : Nat} (v : Nat) (h : b ≠ a) :
    write32 regs a v b = regs b := by
  simp [write32, h]

theorem write32_write32 (regs : Regs) (a v w : Nat) :
    write32 (write32 regs a v) a w = write32 regs a w := by
  funext b
  by_cases h : b = a <;> simp [write32, h]

theorem three_bit_mask_testBit (fd base : Nat) {p : Nat} (hp : p ≤ 57) (j : Nat) :
    (fill_priv_dat fd base p)._3_bit_map_mask.testBit j
      = decide (j < if p / 10 = 5 then 24 else 30) := by
  have hm30 : GPREG0_4_3BIT_WRITE_MASK = 2 ^ 30 - 1 := by decide
  have hm24 : GPREG5_3BIT_WRITE_MASK = 2 ^ 24 - 1 := by decide
  have hind : fn_sel_reg_ind p = p / 10 := by
    simp only [fn_sel_reg_ind, BASE_TEN, FNSEL_REGS_SZ, FNSEL_REGS, List.length]
    omega
  have hsz : FNSEL_REGS_SZ - 1 = 5 := by decide
  by_cases h : p / 10 = 5
  · simp only [fill_priv_dat, hind, hsz, h, ne_eq, not_true_eq_false, if_false, if_true, hm24,
      Nat.testBit_two_pow_sub_one]
  · simp only [fill_priv_dat, hind, hsz, h, ne_eq, not_false_eq_true, if_false, if_true, hm30,
      Nat.testBit_two_pow_sub_one]

theorem one_bit_mask_testBit (fd base : Nat) {p : Nat} (hp : p ≤ 57) (j : Nat) :
    (fill_priv_dat fd base p)._1_bit_map_mask.testBit j
      = decide (j < if p / 32 = 1 then 26 else 32) := by
  have hm32 : GPREG0_1BIT_WRITE_MASK = 2 ^ 32 - 1 := by decide
  have hm26 : GPREG1_1BIT_WRITE_MASK = 2 ^ 26 - 1 := by decide
  have hind : single_bit_reg_ind p = p / 32 := by
    simp only [single_bit_reg_ind, PIN_MAX_BIT, BIT_1_REGS_SZ, GPSET_REGS, List.length]
    omega
  have hsz : BIT_1_REGS_SZ - 1 = 1 := by decide
  by_cases h : p / 32 = 1
  · simp only [fill_priv_dat, hind, hsz, h, ne_eq, not_true_eq_false, if_false, if_true, hm26,
      Nat.testBit_two_pow_sub_one]
  · simp only [fill_priv_dat, hind, hsz, h, ne_eq, not_false_eq_true, if_false, if_true, hm32,
      Nat.testBit_two_pow_sub_one]

/-- Bit `j` of the word stored by `__set_gpio_fn`, for a requested line. -/
theorem fnSelWord_testBit (fd base : Nat) {p : Nat} (hp : p ≤ 57) (fn : FunctionSelect)
    (regs : Regs) (j : Nat) :
    (fnSelWord (fill_priv_dat fd base p) fn regs).testBit j
      = (((regs (fill_priv_dat fd base p)._fn_sel_reg).testBit j &&
            decide (j < if p / 10 = 5 then 24 else 30) &&
            !((3 <<< ((p % 10) * 3)).testBit j)) ||
          (fn.val <<< ((p % 10) * 3)).testBit j) := by
  have hpin : (fill_priv_dat fd base p)._pin_value = p := rfl
  have hf : j < (p % 10) * 3 ∨ (p % 10) * 3 + 3 ≤ j ∨ j < 32 := by omega
  have hf32 : ¬ j < 32 → (fn.val <<< ((p % 10) * 3)).testBit j = false := fun h =>
    testBit_shiftLeft_outside fn.val_lt (by omega)
  have hm32 : ¬ j < 32 → ¬ j < (if p / 10 = 5 then 24 else 30) := by
    intro h; split <;> omega
  simp only [fnSelWord, hpin, read32, testBit_u32, Nat.testBit_or, Nat.testBit_and,
    Nat.testBit_xor, three_bit_mask_testBit fd base hp]
  by_cases h32 : j < 32
  · simp only [h32, decide_True, Bool.true_and]
    cases (regs (fill_priv_dat fd base p)._fn_sel_reg).testBit j <;>
      cases decide (j < if p / 10 = 5 then 24 else 30) <;>
      cases (3 <<< ((p % 10) * 3)).testBit j <;> rfl
  · simp [h32, hf32 h32, hm32 h32]

/-- Bit `j` of the word stored by `__write_gpio`, for a requested line. -/
theorem strobeWord_testBit_eq (fd base : Nat) {p : Nat} (hp : p ≤ 57) (regs : Regs)
    (target j : Nat) :
    (strobeWord (fill_priv_dat fd base p) regs target).testBit j
      = (((regs target).testBit j && decide (j < if p / 32 = 1 then 26 else 32)) ||
          decide (j = p % 32)) := by
  have hpin : (fill_priv_dat fd base p)._pin_value = p := rfl
  have hlt : p % 32 < 32 := Nat.mod_lt _ (by decide)
  have hbit : (1 <<< (p % 32)).testBit j = decide (j = p % 32) := by
    rw [Nat.one_shiftLeft, Nat.testBit_two_pow]
    by_cases h : p % 32 = j
    · simp [h]
    · have h2 : ¬ j = p % 32 := fun e => h e.symm
      simp [h, h2]
  have hm32 : ¬ j < 32 → ¬ j < (if p / 32 = 1 then 26 else 32) := by
    intro h; split <;> omega
  simp only [strobeWord, hpin, read32, testBit_u32, Nat.testBit_or, Nat.testBit_and,
    Nat.testBit_xor, one_bit_mask_testBit fd base hp, hbit]
  by_cases h32 : j < 32
  · by_cases hj : j = p % 32
    · simp [hj, hlt]
    · simp only [h32, hj, decide_True, decide_False, Bool.true_and, Bool.or_false,
        Bool.false_xor]
      cases (regs target).testBit j <;>
        cases decide (j < if p / 32 = 1 then 26 else 32) <;> rfl
  · have hj : ¬ j = p % 32 := by omega
    simp [h32, hj, hm32 h32]

theorem write32_congr (regs : Regs) (a : Nat) {v w : Nat} (h : u32 v = u32 w) :
    write32 regs a v = write32 regs a w := by
  funext b
  simp only [write32, h]

theorem fnSelWord_idempotent (d : _gpio_internals_t) (fn : FunctionSelect) (regs : Regs) :
    u32 (fnSelWord d fn (write32 regs d._fn_sel_reg (fnSelWord d fn regs)))
      = u32 (fnSelWord d fn regs) := by
  simp only [fnSelWord, read32, write32_same]
  exact rmw_idempotent _ _ _ _

theorem strobeWord_idempotent (d : _gpio_internals_t) (regs : Regs) (target : Nat) :
    u32 (strobeWord d (write32 regs target (strobeWord d regs target)) target)
      = u32 (strobeWord d regs target) := by
  simp only [strobeWord, read32, write32_same]
  exact rmw_idempotent _ _ _ _

theorem liveFunction_write32_other (d : _gpio_internals_t) (regs : Regs) {a : Nat} (v : Nat)
    (h : d._fn_sel_reg ≠ a) : liveFunction d (write32 regs a v) = liveFunction d regs := by
  simp only [liveFunction, read32, write32_other regs v h]

theorem requested_fn_sel_reg (fd base : Nat) {p : Nat} (hp : p ≤ 57) :
    (fill_priv_dat fd base p)._fn_sel_reg = base + 4 * (p / 10) := by
  obtain ⟨h1, -⟩ := tables_at_valid_pin p (by omega)
  simp only [fill_priv_dat, h1]
  omega

/-! ## C11: isolation of neighbouring pins -/

/-- C11: for distinct valid pins `A`, `B` sharing a FunctionSelect word (`A / 10 = B / 10`),
any prior device memory and any of the eight function codes, `__set_gpio_fn` on the line
of `A` leaves the 3-bit field of `B` as it was; for distinct `A`, `B` sharing a Set/Clear
word (`A / 32 = B / 32`), a `__write_gpio` on the line of `A` that returns `0` leaves bit
`B mod 32` of the written word equal to its prior content. -/
theorem operations_isolate_other_pins (fd base A B v : Nat) (fn : FunctionSelect)
    (regs : Regs) (hA : A ≤ 57) (hB : B ≤ 57) (hne : A ≠ B) :
    (A / 10 = B / 10 →
      (fill_priv_dat fd base B)._fn_sel_reg = (fill_priv_dat fd base A)._fn_sel_reg ∧
      (read32 (__set_gpio_fn (some (fill_priv_dat fd base A)) fn regs).2
          (fill_priv_dat fd base B)._fn_sel_reg >>> ((B % 10) * 3)) &&& 7
        = (read32 regs (fill_priv_dat fd base B)._fn_sel_reg >>> ((B % 10) * 3)) &&& 7) ∧
    (A / 32 = B / 32 →
      (__write_gpio (some (fill_priv_dat fd base A)) v regs).1 = 0 →
      (read32 (__write_gpio (some (fill_priv_dat fd base A)) v regs).2
          (if v = 1 then (fill_priv_dat fd base A)._set_reg
            else (fill_priv_dat fd base A)._clr_reg)).testBit (B % 32)
        = (read32 regs
          (if v = 1 then (fill_priv_dat fd base A)._set_reg
            else (fill_priv_dat fd base A)._clr_reg)).testBit (B % 32)) := by
  have hpinA : (fill_priv_dat fd base A)._pin_value = A := rfl
  constructor
  · intro hw
    have haddr : (fill_priv_dat fd base B)._fn_sel_reg = (fill_priv_dat fd base A)._fn_sel_reg := by
      rw [requested_fn_sel_reg fd base hA, requested_fn_sel_reg fd base hB, hw]
    refine ⟨haddr, ?_⟩
    rw [set_gpio_fn_eq _ fn regs (by rw [hpinA]; exact hA), haddr]
    apply Nat.eq_of_testBit_eq
    intro i
    have h7 : Nat.testBit 7 i = decide (i < 3) := Nat.testBit_two_pow_sub_one 3 i
    simp only [Nat.testBit_and, Nat.testBit_shiftRight, read32, write32_same, testBit_u32, h7,
      fnSelWord_testBit fd base hA]
    by_cases hi : i < 3
    · have hout : (B % 10) * 3 + i < (A % 10) * 3 ∨ (A % 10) * 3 + 3 ≤ (B % 10) * 3 + i := by
        omega
      have hc : (3 <<< ((A % 10) * 3)).testBit ((B % 10) * 3 + i) = false :=
        testBit_shiftLeft_outside (by decide : 3 < 2 ^ 2) (by omega)
      have hf : (fn.val <<< ((A % 10) * 3)).testBit ((B % 10) * 3 + i) = false :=
        testBit_shiftLeft_outside fn.val_lt hout
      have hm : (B % 10) * 3 + i < (if A / 10 = 5 then 24 else 30) := by
        split <;> omega
      have h32 : (B % 10) * 3 + i < 32 := by omega
      simp [hc, hf, hm, h32]
    · simp [hi]
  · intro hw hok
    have hk : B % 32 ≠ A % 32 := by omega
    have hm : B % 32 < (if A / 32 = 1 then 26 else 32) := by
      split <;> omega
    have h32 : B % 32 < 32 := by omega
    rcases write_gpio_branches (fill_priv_dat fd base A) v regs (by rw [hpinA]; exact hA) with
      ⟨-, h⟩ | ⟨-, h1, h⟩ | ⟨-, h0, h⟩ | ⟨-, -, -, h⟩
    · rw [h] at hok; exact absurd (show EPIN_CONFIG = (0 : Int) from hok) (by decide)
    · subst h1
      rw [h, if_pos rfl]
      simp only [read32, write32_same, testBit_u32, strobeWord_testBit_eq fd base hA]
      simp [hk, hm, h32]
    · subst h0
      rw [h, if_neg (by decide : ¬ (0 : Nat) = 1)]
      simp only [read32, write32_same, testBit_u32, strobeWord_testBit_eq fd base hA]
      simp [hk, hm, h32]
    · rw [h] at hok; exact absurd (show EOUT_OF_RANGE = (0 : Int) from hok) (by decide)

/-- C11 for pins 17 and 18 of the region at `0x7000` (same FunctionSelect word, same
Set word), pin 17 an output: selecting `ALT_0` for pin 17 keeps the field of pin 18 and
driving pin 17 high keeps bit 18 of the Set word. -/
theorem operations_isolate_other_pins_witness :
    17 ≤ 57 ∧ 18 ≤ 57 ∧ 17 ≠ 18 ∧ 17 / 10 = 18 / 10 ∧ 17 / 32 = 18 / 32 ∧
    (__write_gpio (some (fill_priv_dat 3 0x7000 17)) 1 outputRegs17).1 = 0 ∧
    (read32 (__set_gpio_fn (some (fill_priv_dat 3 0x7000 17)) FunctionSelect.ALT_0
          outputRegs17).2
        (fill_priv_dat 3 0x7000 18)._fn_sel_reg >>> ((18 % 10) * 3)) &&& 7
      = (read32 outputRegs17 (fill_priv_dat 3 0x7000 18)._fn_sel_reg >>> ((18 % 10) * 3))
          &&& 7 ∧
    (read32 (__write_gpio (some (fill_priv_dat 3 0x7000 17)) 1 outputRegs17).2
        (if 1 = 1 then (fill_priv_dat 3 0x7000 17)._set_reg
          else (fill_priv_dat 3 0x7000 17)._clr_reg)).testBit (18 % 32)
      = (read32 outputRegs17
        (if 1 = 1 then (fill_priv_dat 3 0x7000 17)._set_reg
          else (fill_priv_dat 3 0x7000 17)._clr_reg)).testBit (18 % 32) :=
  have h := operations_isolate_other_pins 3 0x7000 17 18 1 FunctionSelect.ALT_0 outputRegs17
    (by decide) (by decide) (by decide)
  ⟨by decide, by decide, by decide, by decide, by decide, by decide,
    (h.1 (by decide)).2, h.2 (by decide) (by decide)⟩

/-! ## C12: idempotence -/

/-- C12: on private data with a valid pin, for every prior device memory (the reset
state included) and every function code, a second `__set_gpio_fn` with the same code
returns `0` like the first and leaves device memory, hence the FunctionSelect word, as
the first call left it; on a requested line, whenever the live function is `OUTPUT` and
the level is in `{0, 1}`, a second `__write_gpio` with the same level returns `0` like
the first and leaves device memory, hence the Set/Clear word, as the first call left
it. -/
theorem operations_idempotent (d : _gpio_internals_t) (fn : FunctionSelect)
    (fd base p v : Nat) (regs : Regs) :
    (d._pin_value ≤ 57 →
      (__set_gpio_fn (some d) fn regs).1 = 0 ∧
      (__set_gpio_fn (some d) fn (__set_gpio_fn (some d) fn regs).2).1 = 0 ∧
      (__set_gpio_fn (some d) fn (__set_gpio_fn (some d) fn regs).2).2
        = (__set_gpio_fn (some d) fn regs).2) ∧
    (p ≤ 57 →
      liveFunction (fill_priv_dat fd base p) regs = FunctionSelect.OUTPUT.val →
      (v = 1 ∨ v = 0) →
      (__write_gpio (some (fill_priv_dat fd base p)) v regs).1 = 0 ∧
      (__write_gpio (some (fill_priv_dat fd base p)) v
        (__write_gpio (some (fill_priv_dat fd base p)) v regs).2).1 = 0 ∧
      (__write_gpio (some (fill_priv_dat fd base p)) v
        (__write_gpio (some (fill_priv_dat fd base p)) v regs).2).2
        = (__write_gpio (some (fill_priv_dat fd base p)) v regs).2) := by
  constructor
  · intro hd
    rw [set_gpio_fn_eq d fn regs hd, set_gpio_fn_eq d fn _ hd]
    refine ⟨rfl, rfl, ?_⟩
    show write32 (write32 regs d._fn_sel_reg (fnSelWord d fn regs)) d._fn_sel_reg _ = _
    rw [write32_write32]
    exact write32_congr regs _ (fnSelWord_idempotent d fn regs)
  · intro hp hout hv
    obtain ⟨-, -, hsf, -, hcf⟩ := requested_registers_distinct fd base hp
    have hpin : (fill_priv_dat fd base p)._pin_value = p := rfl
    have hout1 : liveFunction (fill_priv_dat fd base p) regs = 1 := hout
    rcases write_gpio_branches (fill_priv_dat fd base p) v regs (by rw [hpin]; exact hp) with
      ⟨hf, -⟩ | ⟨-, h1, h⟩ | ⟨-, h0, h⟩ | ⟨-, h1, h0, -⟩
    · exact absurd hout1 hf
    · subst h1
      have hlive := liveFunction_write32_other (fill_priv_dat fd base p) regs
        (strobeWord (fill_priv_dat fd base p) regs (fill_priv_dat fd base p)._set_reg) hsf.symm
      rcases write_gpio_branches (fill_priv_dat fd base p) 1
          (write32 regs (fill_priv_dat fd base p)._set_reg
            (strobeWord (fill_priv_dat fd base p) regs (fill_priv_dat fd base p)._set_reg))
          (by rw [hpin]; exact hp) with
        ⟨hf, -⟩ | ⟨-, -, h2⟩ | ⟨-, h0, -⟩ | ⟨-, h1, -, -⟩
      · rw [hlive] at hf; exact absurd hout1 hf
      · rw [h, h2]
        refine ⟨rfl, rfl, ?_⟩
        show write32 (write32 regs _ _) _ _ = _
        rw [write32_write32]
        exact write32_congr regs _ (strobeWord_idempotent _ regs _)
      · exact absurd h0 (by decide)
      · exact absurd rfl h1
    · subst h0
      have hlive := liveFunction_write32_other (fill_priv_dat fd base p) regs
        (strobeWord (fill_priv_dat fd base p) regs (fill_priv_dat fd base p)._clr_reg) hcf.symm
      rcases write_gpio_branches (fill_priv_dat fd base p) 0
          (write32 regs (fill_priv_dat fd base p)._clr_reg
            (strobeWord (fill_priv_dat fd base p) regs (fill_priv_dat fd base p)._clr_reg))
          (by rw [hpin]; exact hp) with
        ⟨hf, -⟩ | ⟨-, h1, -⟩ | ⟨-, -, h2⟩ | ⟨-, -, h0, -⟩
      · rw [hlive] at hf; exact absurd hout1 hf
      · exact absurd h1 (by decide)
      · rw [h, h2]
        refine ⟨rfl, rfl, ?_⟩
        show write32 (write32 regs _ _) _ _ = _
        rw [write32_write32]
        exact write32_congr regs _ (strobeWord_idempotent _ regs _)
      · exact absurd rfl h0
    · rcases hv with hv | hv
      · exact absurd hv h1
      · exact absurd hv h0

/-- C12 on the line of pin 17 (region at `0x7000`): selecting `ALT_3` twice from the
reset state (every register zero) and from an all-ones memory, and, with the pin
configured as an output, driving it high twice. -/
theorem operations_idempotent_witness :
    (fill_priv_dat 3 0x7000 17)._pin_value ≤ 57 ∧
    (__set_gpio_fn (some (fill_priv_dat 3 0x7000 17)) FunctionSelect.ALT_3
        (__set_gpio_fn (some (fill_priv_dat 3 0x7000 17)) FunctionSelect.ALT_3
          zeroRegs).2).2
      = (__set_gpio_fn (some (fill_priv_dat 3 0x7000 17)) FunctionSelect.ALT_3 zeroRegs).2 ∧
    (__set_gpio_fn (some (fill_priv_dat 3 0x7000 17)) FunctionSelect.INPUT
        (__set_gpio_fn (some (fill_priv_dat 3 0x7000 17)) FunctionSelect.INPUT
          (fun _ => 0xFFFFFFFF)).2).2
      = (__set_gpio_fn (some (fill_priv_dat 3 0x7000 17)) FunctionSelect.INPUT
          (fun _ => 0xFFFFFFFF)).2 ∧
    17 ≤ 57 ∧
    liveFunction (fill_priv_dat 3 0x7000 17) outputRegs17 = FunctionSelect.OUTPUT.val ∧
    (__write_gpio (some (fill_priv_dat 3 0x7000 17)) 1
        (__write_gpio (some (fill_priv_dat 3 0x7000 17)) 1 outputRegs17).2).1 = 0 ∧
    (__write_gpio (some (fill_priv_dat 3 0x7000 17)) 1
        (__write_gpio (some (fill_priv_dat 3 0x7000 17)) 1 outputRegs17).2).2
      = (__write_gpio (some (fill_priv_dat 3 0x7000 17)) 1 outputRegs17).2 :=
  ⟨by decide,
    ((operations_idempotent (fill_priv_dat 3 0x7000 17) FunctionSelect.ALT_3 3 0x7000 17 1
      zeroRegs).1 (by decide)).2.2,
    ((operations_idempotent (fill_priv_dat 3 0x7000 17) FunctionSelect.INPUT 3 0x7000 17 1
      (fun _ => 0xFFFFFFFF)).1 (by decide)).2.2,
    by decide, by decide,
    ((operations_idempotent (fill_priv_dat 3 0x7000 17) FunctionSelect.ALT_3 3 0x7000 17 1
      outputRegs17).2 (by decide) (by decide) (Or.inl rfl)).2.1,
    ((operations_idempotent (fill_priv_dat 3 0x7000 17) FunctionSelect.ALT_3 3 0x7000 17 1
      outputRegs17).2 (by decide) (by decide) (Or.inl rfl)).2.2⟩

/-! ## C13: reserved bits -/

/-- C13: for a requested line (valid pin `p`), any prior device memory and any function
code, the word `__set_gpio_fn` writes has every bit outside the line's 3-bit write mask
equal to `0`: bits 30 and above for words 0 to 4 (`p < 50`), bits 24 and above for
word 5 (`50 ≤ p`).  The word a `__write_gpio` returning `0` writes has every bit outside
the line's 1-bit write mask equal to `0`: bits 26 and above for word 1 (`32 ≤ p`),
bits 32 and above for word 0. -/
theorem reserved_bits_written_zero (fd base p v : Nat) (fn : FunctionSelect) (regs : Regs)
    (hp : p ≤ 57) :
    ((__set_gpio_fn (some (fill_priv_dat fd base p)) fn regs).1 = 0 ∧
      (∀ i : Nat, (fill_priv_dat fd base p)._3_bit_map_mask.testBit i = false →
        ((__set_gpio_fn (some (fill_priv_dat fd base p)) fn regs).2
          (fill_priv_dat fd base p)._fn_sel_reg).testBit i = false) ∧
      (∀ i : Nat, (if p < 50 then 30 else 24) ≤ i →
        ((__set_gpio_fn (some (fill_priv_dat fd base p)) fn regs).2
          (fill_priv_dat fd base p)._fn_sel_reg).testBit i = false)) ∧
    ((__write_gpio (some (fill_priv_dat fd base p)) v regs).1 = 0 →
      (∀ i : Nat, (fill_priv_dat fd base p)._1_bit_map_mask.testBit i = false →
        ((__write_gpio (some (fill_priv_dat fd base p)) v regs).2
          (if v = 1 then (fill_priv_dat fd base p)._set_reg
            else (fill_priv_dat fd base p)._clr_reg)).testBit i = false) ∧
      (∀ i : Nat, (if p < 32 then 32 else 26) ≤ i →
        ((__write_gpio (some (fill_priv_dat fd base p)) v regs).2
          (if v = 1 then (fill_priv_dat fd base p)._set_reg
            else (fill_priv_dat fd base p)._clr_reg)).testBit i = false)) := by
  have hpin : (fill_priv_dat fd base p)._pin_value = p := rfl
  have key3 : ∀ i : Nat, ¬ i < (if p / 10 = 5 then 24 else 30) →
      (u32 (fnSelWord (fill_priv_dat fd base p) fn regs)).testBit i = false := by
    intro i hi
    have hge : (p % 10) * 3 + 3 ≤ i := by
      split at hi <;> omega
    have hf : (fn.val <<< ((p % 10) * 3)).testBit i = false :=
      testBit_shiftLeft_outside fn.val_lt (Or.inr hge)
    simp [testBit_u32, fnSelWord_testBit fd base hp, hi, hf]
  have key1 : ∀ (t i : Nat), ¬ i < (if p / 32 = 1 then 26 else 32) →
      (u32 (strobeWord (fill_priv_dat fd base p) regs t)).testBit i = false := by
    intro t i hi
    have hne : ¬ i = p % 32 := by
      split at hi <;> omega
    simp [testBit_u32, strobeWord_testBit_eq fd base hp, hi, hne]
  constructor
  · rw [set_gpio_fn_eq _ fn regs (by rw [hpin]; exact hp)]
    refine ⟨rfl, fun i hi => ?_, fun i hi => ?_⟩
    · rw [three_bit_mask_testBit fd base hp] at hi
      show (write32 regs _ _ _).testBit i = false
      rw [write32_same]
      exact key3 i (by simpa using hi)
    · show (write32 regs _ _ _).testBit i = false
      rw [write32_same]
      refine key3 i ?_
      split at hi <;> split <;> omega
  · intro hok
    have hwritten : ∃ t, (__write_gpio (some (fill_priv_dat fd base p)) v regs).2
        (if v = 1 then (fill_priv_dat fd base p)._set_reg
          else (fill_priv_dat fd base p)._clr_reg)
        = u32 (strobeWord (fill_priv_dat fd base p) regs t) := by
      rcases write_gpio_branches (fill_priv_dat fd base p) v regs (by rw [hpin]; exact hp) with
        ⟨-, h⟩ | ⟨-, h1, h⟩ | ⟨-, h0, h⟩ | ⟨-, -, -, h⟩
      · rw [h] at hok; exact absurd (show EPIN_CONFIG = (0 : Int) from hok) (by decide)
      · subst h1
        rw [h, if_pos rfl]
        exact ⟨_, write32_same regs _ _⟩
      · subst h0
        rw [h, if_neg (by decide : ¬ (0 : Nat) = 1)]
        exact ⟨_, write32_same regs _ _⟩
      · rw [h] at hok; exact absurd (show EOUT_OF_RANGE = (0 : Int) from hok) (by decide)
    obtain ⟨t, ht⟩ := hwritten
    rw [ht]
    refine ⟨fun i hi => ?_, fun i hi => ?_⟩
    · rw [one_bit_mask_testBit fd base hp] at hi
      exact key1 t i (by simpa using hi)
    · refine key1 t i ?_
      split at hi <;> split <;> omega

/-- C13 on the line of pin 50 (FunctionSelect word 5) with the FunctionSelect word
reading all ones: bit 24 of the written word is `0`; and on the line of pin 32 (Set
word 1) configured as an output with the Set word reading all ones: bit 26 of the
written word is `0`. -/
theorem reserved_bits_written_zero_witness :
    50 ≤ 57 ∧ 32 ≤ 57 ∧
    ((__set_gpio_fn (some (fill_priv_dat 3 0x7000 50)) FunctionSelect.ALT_3
        (fun _ => 0xFFFFFFFF)).2 (fill_priv_dat 3 0x7000 50)._fn_sel_reg).testBit 24
      = false ∧
    (__write_gpio (some (fill_priv_dat 3 0x7000 32)) 1
        (write32 (fun _ => 0xFFFFFFFF) 0x700C (1 <<< 6))).1 = 0 ∧
    ((__write_gpio (some (fill_priv_dat 3 0x7000 32)) 1
        (write32 (fun _ => 0xFFFFFFFF) 0x700C (1 <<< 6))).2
        (if 1 = 1 then (fill_priv_dat 3 0x7000 32)._set_reg
          else (fill_priv_dat 3 0x7000 32)._clr_reg)).testBit 26 = false :=
  ⟨by decide, by decide,
    (reserved_bits_written_zero 3 0x7000 50 1 FunctionSelect.ALT_3 (fun _ => 0xFFFFFFFF)
      (by decide)).1.2.2 24 (by decide),
    by decide,
    ((reserved_bits_written_zero 3 0x7000 32 1 FunctionSelect.ALT_3
      (write32 (fun _ => 0xFFFFFFFF) 0x700C (1 <<< 6)) (by decide)).2 (by decide)).2 26
      (by decide)⟩

/-! ## C14 to C16: acquisition of the device -/

theorem request_gpio_line_open_fails (sys : SysOutcome) (os : Resources) (line : gpio_line_t)
    {p : Nat} (hp : p ≤ 57) (ho : sys.open_fd = none) :
    request_gpio_line sys os line p = (EDEVMEM_OPEN, sys_free line.priv_dat os, line) := by
  simp [request_gpio_line, request_acquire, pin_in_range_eq_zero hp, sys_open, ho,
    EDEVMEM_OPEN, sys_close]

theorem request_gpio_line_mmap_fails (sys : SysOutcome) (os : Resources) (line : gpio_line_t)
    {p fd : Nat} (hp : p ≤ 57) (ho : sys.open_fd = some fd) (hm : sys.mmap_addr = none) :
    request_gpio_line sys os line p
      = (EMAP_FAIL,
          sys_free line.priv_dat
            (sys_close fd { os with opens := os.opens + 1, open_fds := (fd : Int) :: os.open_fds }),
          line) := by
  have hfd : ¬ (-1 : Int) = (fd : Int) := by omega
  simp [request_gpio_line, request_acquire, pin_in_range_eq_zero hp, sys_open, sys_mmap, ho,
    hm, hfd, EMAP_FAIL]

theorem request_gpio_line_malloc_fails (sys : SysOutcome) (os : Resources)
    (line : gpio_line_t) {p fd base : Nat} (hp : p ≤ 57) (ho : sys.open_fd = some fd)
    (hm : sys.mmap_addr = some base) (hk : sys.malloc_ok = false) :
    request_gpio_line sys os line p
      = (EMALLOC,
          sys_close fd { opens := os.opens + 1, mmaps := os.mmaps + 1,
                         open_fds := (fd : Int) :: os.open_fds, mapped := base :: os.mapped,
                         allocated := os.allocated },
          { line with priv_dat := none }) := by
  have hfd : ¬ (-1 : Int) = (fd : Int) := by omega
  simp [request_gpio_line, request_acquire, pin_in_range_eq_zero hp, sys_open, sys_mmap,
    sys_malloc, sys_free, ho, hm, hk, hfd, EMALLOC]

theorem request_gpio_line_all_ok (sys : SysOutcome) (os : Resources) (line : gpio_line_t)
    {p fd base : Nat} (hp : p ≤ 57) (ho : sys.open_fd = some fd)
    (hm : sys.mmap_addr = some base) (hk : sys.malloc_ok = true) :
    request_gpio_line sys os line p
      = (0, { opens := os.opens + 1, mmaps := os.mmaps + 1,
              open_fds := (fd : Int) :: os.open_fds, mapped := base :: os.mapped,
              allocated := os.allocated + 1 },
            { line with priv_dat := some (fill_priv_dat fd base p) }) := by
  have hsys : sys = { open_fd := some fd, mmap_addr := some base, malloc_ok := true } := by
    cases sys
    simp_all
  rw [hsys]
  exact request_gpio_line_ok fd base os line hp

/-- C14: for every pin up to 57, `request_gpio_line` returns `EDEVMEM_OPEN` exactly when
`open` fails, `EMAP_FAIL` exactly when `open` succeeds and `mmap` fails, `EMALLOC`
exactly when `open` and `mmap` succeed and `malloc` fails, and `0` exactly when all
three succeed. -/
theorem request_reports_first_failure (sys : SysOutcome) (os : Resources)
    (line : gpio_line_t) (p : Nat) (hp : p ≤ 57) :
    ((request_gpio_line sys os line p).1 = EDEVMEM_OPEN ↔ sys.open_fd = none) ∧
    ((request_gpio_line sys os line p).1 = EMAP_FAIL ↔
      sys.open_fd ≠ none ∧ sys.mmap_addr = none) ∧
    ((request_gpio_line sys os line p).1 = EMALLOC ↔
      sys.open_fd ≠ none ∧ sys.mmap_addr ≠ none ∧ sys.malloc_ok = false) ∧
    ((request_gpio_line sys os line p).1 = 0 ↔
      sys.open_fd ≠ none ∧ sys.mmap_addr ≠ none ∧ sys.malloc_ok = true) := by
  cases ho : sys.open_fd with
  | none =>
    rw [request_gpio_line_open_fails sys os line hp ho]
    simp [EDEVMEM_OPEN, EMAP_FAIL, EMALLOC]
  | some fd =>
    cases hm : sys.mmap_addr with
    | none =>
      rw [request_gpio_line_mmap_fails sys os line hp ho hm]
      simp [EDEVMEM_OPEN, EMAP_FAIL, EMALLOC]
    | some base =>
      cases hk : sys.malloc_ok with
      | false =>
        rw [request_gpio_line_malloc_fails sys os line hp ho hm hk]
        simp [EDEVMEM_OPEN, EMAP_FAIL, EMALLOC]
      | true =>
        rw [request_gpio_line_all_ok sys os line hp ho hm hk]
        simp [EDEVMEM_OPEN, EMAP_FAIL, EMALLOC]

/-- C14 for pin 17 when `open` and `mmap` succeed and `malloc` fails: the request
returns `-3`. -/
theorem request_reports_first_failure_witness :
    17 ≤ 57 ∧
    (sysMallocFails 0x7000).open_fd ≠ none ∧ (sysMallocFails 0x7000).mmap_addr ≠ none ∧
    (sysMallocFails 0x7000).malloc_ok = false ∧
    (request_gpio_line (sysMallocFails 0x7000) noResources freshLine 17).1 = EMALLOC :=
  ⟨by decide, by decide, by decide, by decide,
    (request_reports_first_failure (sysMallocFails 0x7000) noResources freshLine 17
      (by decide)).2.2.1.2 ⟨by decide, by decide, by decide⟩⟩

/-- C15 evaluated for pin 17 from a process holding nothing, `open` returning
descriptor 3, `mmap` returning `0x7000` and `malloc` returning `NULL`: the request
returns `EMALLOC`, the descriptor has been closed and nothing is allocated, but the
region at `0x7000` is still mapped. -/
theorem request_leaves_mapping_on_malloc_failure :
    (request_gpio_line (sysMallocFails 0x7000) noResources freshLine 17).1 = EMALLOC ∧
    (request_gpio_line (sysMallocFails 0x7000) noResources freshLine 17).2.1.open_fds = [] ∧
    (request_gpio_line (sysMallocFails 0x7000) noResources freshLine 17).2.1.allocated = 0 ∧
    (request_gpio_line (sysMallocFails 0x7000) noResources freshLine 17).2.1.mapped
      = [0x7000] ∧
    noResources.mapped = [] := by
  decide

theorem request_gpio_line_success_counts (sys : SysOutcome) (os : Resources)
    (line : gpio_line_t) (p : Nat) (h : (request_gpio_line sys os line p).1 = 0) :
    (request_gpio_line sys os line p).2.1.opens = os.opens + 1 ∧
    (request_gpio_line sys os line p).2.1.mmaps = os.mmaps + 1 := by
  by_cases hp : p ≤ 57
  · cases ho : sys.open_fd with
    | none =>
      rw [request_gpio_line_open_fails sys os line hp ho] at h
      exact absurd (show EDEVMEM_OPEN = (0 : Int) from h) (by decide)
    | some fd =>
      cases hm : sys.mmap_addr with
      | none =>
        rw [request_gpio_line_mmap_fails sys os line hp ho hm] at h
        exact absurd (show EMAP_FAIL = (0 : Int) from h) (by decide)
      | some base =>
        cases hk : sys.malloc_ok with
        | false =>
          rw [request_gpio_line_malloc_fails sys os line hp ho hm hk] at h
          exact absurd (show EMALLOC = (0 : Int) from h) (by decide)
        | true =>
          rw [request_gpio_line_all_ok sys os line hp ho hm hk]
          exact ⟨rfl, rfl⟩
  · rw [request_gpio_line_bad_pin sys os line (by omega : 57 < p)] at h
    exact absurd (show EBAD_PIN = (0 : Int) from h) (by decide)

/-- C16 as stated fails for two successful requests (pins 17 and 18) made from a process
holding nothing: both return `0` and the process has performed two opens and two
mappings, not one of each. -/
theorem two_requests_open_and_map_twice :
    requests_succeed noResources [okCall 3 0x7000 17, okCall 4 0x8000 18] = true ∧
    (request_steps noResources [okCall 3 0x7000 17, okCall 4 0x8000 18]).opens = 2 ∧
    (request_steps noResources [okCall 3 0x7000 17, okCall 4 0x8000 18]).mmaps = 2 ∧
    (request_steps noResources [okCall 3 0x7000 17, okCall 4 0x8000 18]).opens ≠ 1 ∧
    (request_steps noResources [okCall 3 0x7000 17, okCall 4 0x8000 18]).mmaps ≠ 1 := by
  decide

/-- C16 amended: every successful `request_gpio_line` performs its own `open` and its own
`mmap`; a sequence of `n` calls that all return `0` raises the number of opens and the
number of mappings by exactly `n`. -/
theorem each_successful_request_opens_and_maps (os : Resources) (cs : List RequestCall)
    (h : requests_succeed os cs = true) :
    (request_steps os cs).opens = os.opens + cs.length ∧
    (request_steps os cs).mmaps = os.mmaps + cs.length := by
  induction cs generalizing os with
  | nil => exact ⟨rfl, rfl⟩
  | cons c cs ih =>
    simp only [requests_succeed, Bool.and_eq_true, decide_eq_true_eq] at h
    obtain ⟨hc, hrest⟩ := h
    obtain ⟨ho, hm⟩ := request_gpio_line_success_counts c.sys os c.line c.pin hc
    obtain ⟨iho, ihm⟩ := ih (request_step os c) hrest
    have hstep : request_steps os (c :: cs) = request_steps (request_step os c) cs := rfl
    rw [hstep, iho, ihm]
    simp only [request_step, ho, hm, List.length_cons]
    omega

/-- C16 amended, for three successful requests from a process holding nothing. -/
theorem each_successful_request_opens_and_maps_witness :
    requests_succeed noResources
      [okCall 3 0x7000 17, okCall 4 0x8000 18, okCall 5 0x9000 19] = true ∧
    (request_steps noResources
      [okCall 3 0x7000 17, okCall 4 0x8000 18, okCall 5 0x9000 19]).opens
      = noResources.opens + [okCall 3 0x7000 17, okCall 4 0x8000 18, okCall 5 0x9000 19].length ∧
    (request_steps noResources
      [okCall 3 0x7000 17, okCall 4 0x8000 18, okCall 5 0x9000 19]).mmaps
      = noResources.mmaps + [okCall 3 0x7000 17, okCall 4 0x8000 18, okCall 5 0x9000 19].length :=
  ⟨by decide,
    each_successful_request_opens_and_maps noResources
      [okCall 3 0x7000 17, okCall 4 0x8000 18, okCall 5 0x9000 19] (by decide)⟩

/-! ## C17: the function codes -/

/-- C17: the enumeration has the codes `INPUT = 0`, `OUTPUT = 1`, `ALT_5 = 2`,
`ALT_4 = 3`, `ALT_0 = 4`, `ALT_1 = 5`, `ALT_2 = 6`, `ALT_3 = 7`; distinct enumerators
have distinct codes, every code is below `2 ^ 3`, and every value `0..7` is the code of
an enumerator. -/
theorem function_select_codes :
    FunctionSelect.INPUT.val = 0 ∧ FunctionSelect.OUTPUT.val = 1 ∧
    FunctionSelect.ALT_5.val = 2 ∧ FunctionSelect.ALT_4.val = 3 ∧
    FunctionSelect.ALT_0.val = 4 ∧ FunctionSelect.ALT_1.val = 5 ∧
    FunctionSelect.ALT_2.val = 6 ∧ FunctionSelect.ALT_3.val = 7 ∧
    (∀ a b : FunctionSelect, a.val = b.val → a = b) ∧
    (∀ a : FunctionSelect, a.val < 2 ^ 3) ∧
    (∀ n : Nat, n < 8 → ∃ a : FunctionSelect, a.val = n) := by
  refine ⟨rfl, rfl, rfl, rfl, rfl, rfl, rfl, rfl, ?_, FunctionSelect.val_lt, ?_⟩
  · intro a b h
    cases a <;> cases b <;> first | rfl | exact absurd h (by decide)
  · intro n hn
    interval_cases n
    · exact ⟨.INPUT, rfl⟩
    · exact ⟨.OUTPUT, rfl⟩
    · exact ⟨.ALT_5, rfl⟩
    · exact ⟨.ALT_4, rfl⟩
    · exact ⟨.ALT_0, rfl⟩
    · exact ⟨.ALT_1, rfl⟩
    · exact ⟨.ALT_2, rfl⟩
    · exact ⟨.ALT_3, rfl⟩

/-- C17 at the value 5, the code of `ALT_1`, and at the pair `ALT_4`, `ALT_4`. -/
theorem function_select_codes_witness :
    (5 < 8 ∧ ∃ a : FunctionSelect, a.val = 5) ∧
    (FunctionSelect.ALT_4.val = FunctionSelect.ALT_4.val ∧
      FunctionSelect.ALT_4 = FunctionSelect.ALT_4) :=
  ⟨⟨by decide, function_select_codes.2.2.2.2.2.2.2.2.2.2 5 (by decide)⟩,
    ⟨rfl, function_select_codes.2.2.2.2.2.2.2.2.1 _ _ rfl⟩⟩

/-! ## C18, C19: the written words against the specified ones -/

/-- C18 evaluated on the line of pin 17 (region at `0x7000`) whose FunctionSelect field
holds `ALT_0` (binary 100): `__set_gpio_fn(INPUT)` returns `0` and writes the word
`4 << 21`, so the field still reads `4`, while the specified masked read-modify-write
with width 3 gives the word `0`.  From every register zero, `__set_gpio_fn(OUTPUT)`
writes `1 << 21`, as specified. -/
theorem set_gpio_fn_keeps_bit_two_of_old_code :
    liveFunction (fill_priv_dat 3 0x7000 17) altRegs17 = FunctionSelect.ALT_0.val ∧
    (__set_gpio_fn (some (fill_priv_dat 3 0x7000 17)) FunctionSelect.INPUT altRegs17).1 = 0 ∧
    (__set_gpio_fn (some (fill_priv_dat 3 0x7000 17)) FunctionSelect.INPUT altRegs17).2 0x7004
      = 4 <<< 21 ∧
    spec_write_field (altRegs17 0x7004) (fill_priv_dat 3 0x7000 17)._3_bit_map_mask
      ((17 % 10) * 3) 3 FunctionSelect.INPUT.val = 0 ∧
    liveFunction (fill_priv_dat 3 0x7000 17)
      (__set_gpio_fn (some (fill_priv_dat 3 0x7000 17)) FunctionSelect.INPUT altRegs17).2
      = 4 ∧
    (__set_gpio_fn (some (fill_priv_dat 3 0x7000 17)) FunctionSelect.OUTPUT zeroRegs).2 0x7004
      = 1 <<< 21 ∧
    spec_write_field (zeroRegs 0x7004) (fill_priv_dat 3 0x7000 17)._3_bit_map_mask
      ((17 % 10) * 3) 3 FunctionSelect.OUTPUT.val = 1 <<< 21 := by
  decide

/-- C19 evaluated on the line of pin 17 (region at `0x7000`) configured as an output,
with Set word 0 reading back `1` (bit 0): `__write_gpio(1)` returns `0` and writes
`0x20001` to the Set word, the strobe bit `1 << 17` together with the prior bit 0. -/
theorem write_gpio_ors_prior_strobe_content :
    liveFunction (fill_priv_dat 3 0x7000 17) outputRegs17SetBit0 = FunctionSelect.OUTPUT.val ∧
    read32 outputRegs17SetBit0 (fill_priv_dat 3 0x7000 17)._set_reg = 1 ∧
    (__write_gpio (some (fill_priv_dat 3 0x7000 17)) 1 outputRegs17SetBit0).1 = 0 ∧
    (__write_gpio (some (fill_priv_dat 3 0x7000 17)) 1 outputRegs17SetBit0).2
      (fill_priv_dat 3 0x7000 17)._set_reg = 0x20001 ∧
    (1 <<< (17 % 32) : Nat) = 0x20000 := by
  decide

/-! ## C20: bit shifts -/

/-- C20: on a requested line (valid pin `p`) `__set_gpio_fn` places the function code and
its clear pattern at `bit_shift p` and `__write_gpio` tests the field at
`fn_sel_bit_shift p` and writes the strobe bit `setclr_bit p`; both FunctionSelect shifts
equal `(p mod 10) * 3`, at most 27, so the field ends at or below bit 29; the Set/Clear
shift is `p mod 32` and the strobe bit is `2 ^ (p mod 32)`, below `2 ^ 32`.  Pin 9 uses
FunctionSelect word 0 shift 27, pin 10 word 1 shift 0, pin 49 word 4 shift 27, pin 50
word 5 shift 0; pin 31 uses 1-bit word 0 shift 31 and pin 32 word 1 shift 0. -/
theorem bit_shifts_of_valid_pins (fd base p v : Nat) (fn : FunctionSelect) (regs : Regs)
    (hp : p ≤ 57) :
    __set_gpio_fn (some (fill_priv_dat fd base p)) fn regs
      = ((0 : Int), write32 regs (fill_priv_dat fd base p)._fn_sel_reg
          (((read32 regs (fill_priv_dat fd base p)._fn_sel_reg
                &&& (fill_priv_dat fd base p)._3_bit_map_mask)
              &&& u32 ((0x03 <<< bit_shift p) ^^^ (fill_priv_dat fd base p)._3_bit_map_mask))
            ||| u32 (fn.val <<< bit_shift p))) ∧
    __write_gpio (some (fill_priv_dat fd base p)) v regs
      = (if FunctionSelect.OUTPUT.val ≠
            ((read32 regs (fill_priv_dat fd base p)._fn_sel_reg >>> fn_sel_bit_shift p)
              &&& THREE_BIT_MASK) then (EPIN_CONFIG, regs)
         else if 1 = v then
           (0, write32 regs (fill_priv_dat fd base p)._set_reg
             (((read32 regs (fill_priv_dat fd base p)._set_reg
                   &&& (fill_priv_dat fd base p)._1_bit_map_mask)
                 &&& u32 ((0x01 <<< setclr_bit_shift p)
                       ^^^ (fill_priv_dat fd base p)._1_bit_map_mask))
               ||| setclr_bit p))
         else if 0 = v then
           (0, write32 regs (fill_priv_dat fd base p)._clr_reg
             (((read32 regs (fill_priv_dat fd base p)._clr_reg
                   &&& (fill_priv_dat fd base p)._1_bit_map_mask)
                 &&& u32 ((0x01 <<< setclr_bit_shift p)
                       ^^^ (fill_priv_dat fd base p)._1_bit_map_mask))
               ||| setclr_bit p))
         else (EOUT_OF_RANGE, regs)) ∧
    bit_shift p = (p % 10) * 3 ∧
    fn_sel_bit_shift p = (p % 10) * 3 ∧
    (p % 10) * 3 ≤ 27 ∧
    (p % 10) * 3 + 2 ≤ 29 ∧
    setclr_bit_shift p = p % 32 ∧
    setclr_bit p = 2 ^ (p % 32) ∧
    setclr_bit p < 2 ^ 32 ∧
    (fn_sel_reg_ind 9 = 0 ∧ bit_shift 9 = 27 ∧ fn_sel_bit_shift 9 = 27) ∧
    (fn_sel_reg_ind 10 = 1 ∧ bit_shift 10 = 0 ∧ fn_sel_bit_shift 10 = 0) ∧
    (fn_sel_reg_ind 49 = 4 ∧ bit_shift 49 = 27 ∧ fn_sel_bit_shift 49 = 27) ∧
    (fn_sel_reg_ind 50 = 5 ∧ bit_shift 50 = 0 ∧ fn_sel_bit_shift 50 = 0) ∧
    (single_bit_reg_ind 31 = 0 ∧ setclr_bit_shift 31 = 31 ∧ setclr_bit 31 = 2 ^ 31) ∧
    (single_bit_reg_ind 32 = 1 ∧ setclr_bit_shift 32 = 0 ∧ setclr_bit 32 = 1) := by
  have hpin : (fill_priv_dat fd base p)._pin_value = p := rfl
  have hr : ¬ (-1 : Int) = pin_in_range p := by
    rw [pin_in_range_eq_zero hp]; decide
  have hlt : p % 32 < 32 := Nat.mod_lt _ (by decide)
  have hbit : setclr_bit p = 2 ^ (p % 32) := by
    have hpow : 2 ^ (p % 32) < 2 ^ 32 := Nat.pow_lt_pow_right (by decide) hlt
    simp only [setclr_bit, setclr_bit_shift, setclr_shift_eq, Nat.one_shiftLeft]
    exact u32_eq_self hpow
  refine ⟨?_, ?_, fn_sel_shift_eq p, fn_sel_shift_eq p, by omega, by omega, setclr_shift_eq p,
    hbit, ?_, by decide, by decide, by decide, by decide, by decide, by decide⟩
  · simp only [__set_gpio_fn, hpin, hr, if_false, bit_shift]
  · simp only [__write_gpio, hpin, hr, if_false, fn_sel_bit_shift, setclr_bit_shift, setclr_bit]
  · rw [hbit]
    exact Nat.pow_lt_pow_right (by decide) hlt

/-- C20 at pin 49 of the region at `0x7000`: FunctionSelect shift 27, Set/Clear shift 17,
strobe bit `2 ^ 17`. -/
theorem bit_shifts_of_valid_pins_witness :
    49 ≤ 57 ∧ bit_shift 49 = (49 % 10) * 3 ∧ fn_sel_bit_shift 49 = (49 % 10) * 3 ∧
    setclr_bit_shift 49 = 49 % 32 ∧ setclr_bit 49 = 2 ^ (49 % 32) :=
  have h := bit_shifts_of_valid_pins 3 0x7000 49 1 FunctionSelect.OUTPUT zeroRegs (by decide)
  ⟨by decide, h.2.2.1, h.2.2.2.1, h.2.2.2.2.2.2.1, h.2.2.2.2.2.2.2.1⟩

/-! ## C21: the write masks chosen by `request_gpio_line` -/

theorem masks_at_valid_pin :
    ∀ p, p < 58 →
      ((fill_priv_dat 0 0 p)._3_bit_map_mask
          = if 50 ≤ p then GPREG5_3BIT_WRITE_MASK else GPREG0_4_3BIT_WRITE_MASK) ∧
      ((fill_priv_dat 0 0 p)._2_bit_map_mask
          = if 48 ≤ p then GPREG3_2BIT_WRITE_MASK else GPREG0_2_2BIT_WRITE_MASK) ∧
      ((fill_priv_dat 0 0 p)._1_bit_map_mask
          = if 32 ≤ p then GPREG1_1BIT_WRITE_MASK else GPREG0_1BIT_WRITE_MASK) ∧
      (fn_sel_reg_ind p = FNSEL_REGS_SZ - 1 ↔ 50 ≤ p) ∧
      (pup_pdn_reg_ind p = PUP_PDN_REGS_SZ - 1 ↔ 48 ≤ p) ∧
      (single_bit_reg_ind p = BIT_1_REGS_SZ - 1 ↔ 32 ≤ p) := by
  decide

/-- C21: for every pin `p` in `0..57`, a successful `request_gpio_line` stores the
last-word mask exactly when the pin's word index is the last of its family: the 3-bit
mask is `0x00FFFFFF` iff `p ≥ 50` and `0x3FFFFFFF` otherwise, the 2-bit mask is
`0x000FFFFF` iff `p ≥ 48` and `0xFFFFFFFF` otherwise, the 1-bit mask is `0x03FFFFFF` iff
`p ≥ 32` and `0xFFFFFFFF` otherwise; each last-word mask is contained in and different
from the full-word mask of its family. -/
theorem request_gpio_line_mask_selection (p fd base : Nat) (os : Resources)
    (line : gpio_line_t) (hp : p ≤ 57) :
    (∃ d : _gpio_internals_t,
      (request_gpio_line { open_fd := some fd, mmap_addr := some base, malloc_ok := true }
          os line p).2.2.priv_dat = some d ∧
      (d._3_bit_map_mask = 0x00FFFFFF ↔ 50 ≤ p) ∧
      (d._3_bit_map_mask = 0x3FFFFFFF ↔ p < 50) ∧
      (d._2_bit_map_mask = 0x000FFFFF ↔ 48 ≤ p) ∧
      (d._2_bit_map_mask = 0xFFFFFFFF ↔ p < 48) ∧
      (d._1_bit_map_mask = 0x03FFFFFF ↔ 32 ≤ p) ∧
      (d._1_bit_map_mask = 0xFFFFFFFF ↔ p < 32)) ∧
    (fn_sel_reg_ind p = FNSEL_REGS_SZ - 1 ↔ 50 ≤ p) ∧
    (pup_pdn_reg_ind p = PUP_PDN_REGS_SZ - 1 ↔ 48 ≤ p) ∧
    (single_bit_reg_ind p = BIT_1_REGS_SZ - 1 ↔ 32 ≤ p) ∧
    (GPREG5_3BIT_WRITE_MASK &&& GPREG0_4_3BIT_WRITE_MASK = GPREG5_3BIT_WRITE_MASK ∧
      GPREG5_3BIT_WRITE_MASK ≠ GPREG0_4_3BIT_WRITE_MASK) ∧
    (GPREG3_2BIT_WRITE_MASK &&& GPREG0_2_2BIT_WRITE_MASK = GPREG3_2BIT_WRITE_MASK ∧
      GPREG3_2BIT_WRITE_MASK ≠ GPREG0_2_2BIT_WRITE_MASK) ∧
    (GPREG1_1BIT_WRITE_MASK &&& GPREG0_1BIT_WRITE_MASK = GPREG1_1BIT_WRITE_MASK ∧
      GPREG1_1BIT_WRITE_MASK ≠ GPREG0_1BIT_WRITE_MASK) := by
  obtain ⟨h3, h2, h1, i3, i2, i1⟩ := masks_at_valid_pin p (by omega)
  have e3 : (fill_priv_dat fd base p)._3_bit_map_mask = (fill_priv_dat 0 0 p)._3_bit_map_mask :=
    rfl
  have e2 : (fill_priv_dat fd base p)._2_bit_map_mask = (fill_priv_dat 0 0 p)._2_bit_map_mask :=
    rfl
  have e1 : (fill_priv_dat fd base p)._1_bit_map_mask = (fill_priv_dat 0 0 p)._1_bit_map_mask :=
    rfl
  refine ⟨⟨fill_priv_dat fd base p, ?_, ?_, ?_, ?_, ?_, ?_, ?_⟩, i3, i2, i1,
    by decide, by decide, by decide⟩
  · rw [request_gpio_line_ok fd base os line hp]
  · rw [e3, h3]
    by_cases h : 50 ≤ p <;> simp [h, GPREG5_3BIT_WRITE_MASK, GPREG0_4_3BIT_WRITE_MASK]
  · rw [e3, h3]
    by_cases h : 50 ≤ p
    · simp [h, GPREG5_3BIT_WRITE_MASK, GPREG0_4_3BIT_WRITE_MASK]
    · simp only [h, if_false, GPREG5_3BIT_WRITE_MASK, GPREG0_4_3BIT_WRITE_MASK]
      constructor <;> intro _ <;> first | trivial | omega
  · rw [e2, h2]
    by_cases h : 48 ≤ p <;> simp [h, GPREG3_2BIT_WRITE_MASK, GPREG0_2_2BIT_WRITE_MASK]
  · rw [e2, h2]
    by_cases h : 48 ≤ p
    · simp [h, GPREG3_2BIT_WRITE_MASK, GPREG0_2_2BIT_WRITE_MASK]
    · simp only [h, if_false, GPREG3_2BIT_WRITE_MASK, GPREG0_2_2BIT_WRITE_MASK]
      constructor <;> intro _ <;> first | trivial | omega
  · rw [e1, h1]
    by_cases h : 32 ≤ p <;> simp [h, GPREG1_1BIT_WRITE_MASK, GPREG0_1BIT_WRITE_MASK]
  · rw [e1, h1]
    by_cases h : 32 ≤ p
    · simp [h, GPREG1_1BIT_WRITE_MASK, GPREG0_1BIT_WRITE_MASK]
    · simp only [h, if_false, GPREG1_1BIT_WRITE_MASK, GPREG0_1BIT_WRITE_MASK]
      constructor <;> intro _ <;> first | trivial | omega

/-- C21 at pin 50 of the region at `0x7000`: the 3-bit, 2-bit and 1-bit masks stored are
the three last-word masks. -/
theorem request_gpio_line_mask_selection_witness :
    50 ≤ 57 ∧
    (∃ d : _gpio_internals_t,
      (request_gpio_line { open_fd := some 3, mmap_addr := some 0x7000, malloc_ok := true }
          noResources freshLine 50).2.2.priv_dat = some d ∧
      (d._3_bit_map_mask = 0x00FFFFFF ↔ 50 ≤ 50) ∧
      (d._3_bit_map_mask = 0x3FFFFFFF ↔ 50 < 50) ∧
      (d._2_bit_map_mask = 0x000FFFFF ↔ 48 ≤ 50) ∧
      (d._2_bit_map_mask = 0xFFFFFFFF ↔ 50 < 48) ∧
      (d._1_bit_map_mask = 0x03FFFFFF ↔ 32 ≤ 50) ∧
      (d._1_bit_map_mask = 0xFFFFFFFF ↔ 50 < 32)) :=
  ⟨by decide,
    (request_gpio_line_mask_selection 50 3 0x7000 noResources freshLine (by decide)).1⟩

/-! ## C22: what the operations leave untouched -/

theorem set_gpio_fn_frame (pd : Option _gpio_internals_t) (fn : FunctionSelect) (regs : Regs)
    (a : Nat) (h : ∀ d, pd = some d → a ≠ d._fn_sel_reg) :
    (__set_gpio_fn pd fn regs).2 a = regs a := by
  cases pd with
  | none => rfl
  | some d =>
    rcases set_gpio_fn_internal_branches d fn regs with ⟨-, hb⟩ | ⟨hp, -⟩
    · rw [hb]
    · rw [set_gpio_fn_eq d fn regs hp]
      exact write32_other regs _ (h d rfl)

theorem write_gpio_keeps_fn_sel_word (fd base v : Nat) (regs : Regs) {p : Nat} (hp : p ≤ 57) :
    (__write_gpio (some (fill_priv_dat fd base p)) v regs).2 (fill_priv_dat fd base p)._fn_sel_reg
      = regs (fill_priv_dat fd base p)._fn_sel_reg := by
  obtain ⟨-, -, hsf, -, hcf⟩ := requested_registers_distinct fd base hp
  have hpin : (fill_priv_dat fd base p)._pin_value = p := rfl
  rcases write_gpio_branches (fill_priv_dat fd base p) v regs (by rw [hpin]; exact hp) with
    ⟨-, h⟩ | ⟨-, -, h⟩ | ⟨-, -, h⟩ | ⟨-, -, -, h⟩
  · rw [h]
  · rw [h]; exact write32_other regs _ hsf.symm
  · rw [h]; exact write32_other regs _ hcf.symm
  · rw [h]

theorem privDatAt_congr (layout : Member → Nat) (pdat : Nat) {mem mem2 : Regs}
    (h : ∀ m, mem2 (pdat + layout m) = mem (pdat + layout m)) :
    privDatAt layout pdat mem2 = privDatAt layout pdat mem := by
  simp only [privDatAt, h]

theorem set_gpio_fn_outside_region (fd base : Nat) {p : Nat} (hp : p ≤ 57)
    (fn : FunctionSelect) (regs : Regs) (a : Nat)
    (ha : a < base ∨ base + GPIO_ADDR_RANGE_SIZE ≤ a) :
    (__set_gpio_fn (some (fill_priv_dat fd base p)) fn regs).2 a = regs a := by
  have hsize : GPIO_ADDR_RANGE_SIZE = 0xF4 := by decide
  refine set_gpio_fn_frame _ fn regs a (fun d hd => ?_)
  have hd2 : d = fill_priv_dat fd base p := (Option.some.inj hd).symm
  rw [hd2, requested_fn_sel_reg fd base hp]
  omega

theorem write_gpio_outside_region (fd base : Nat) {p : Nat} (hp : p ≤ 57) (v : Nat)
    (regs : Regs) (a : Nat) (ha : a < base ∨ base + GPIO_ADDR_RANGE_SIZE ≤ a) :
    (__write_gpio (some (fill_priv_dat fd base p)) v regs).2 a = regs a := by
  have hsize : GPIO_ADDR_RANGE_SIZE = 0xF4 := by decide
  obtain ⟨-, -, h3, h4, -, -⟩ := tables_at_valid_pin p (by omega)
  have hset : (fill_priv_dat fd base p)._set_reg = base + (0x1C + 4 * (p / 32)) := by
    simp only [fill_priv_dat, h3]
  have hclr : (fill_priv_dat fd base p)._clr_reg = base + (0x28 + 4 * (p / 32)) := by
    simp only [fill_priv_dat, h4]
  have hpin : (fill_priv_dat fd base p)._pin_value = p := rfl
  rcases write_gpio_branches (fill_priv_dat fd base p) v regs (by rw [hpin]; exact hp) with
    ⟨-, h⟩ | ⟨-, -, h⟩ | ⟨-, -, h⟩ | ⟨-, -, -, h⟩
  · rw [h]
  · rw [h]
    refine write32_other regs _ ?_
    rw [hset]; omega
  · rw [h]
    refine write32_other regs _ ?_
    rw [hclr]; omega
  · rw [h]

theorem execOps_outside_region (layout : Member → Nat) (pdat fd base : Nat) {p : Nat}
    (hp : p ≤ 57) (mem : Regs)
    (hstored : privDatAt layout pdat mem = some (fill_priv_dat fd base p))
    (hsep : ∀ m, pdat + layout m + 8 ≤ base ∨ base + GPIO_ADDR_RANGE_SIZE ≤ pdat + layout m)
    (ops : List LineOp) :
    ∀ mem2 : Regs, (∀ a, (a < base ∨ base + GPIO_ADDR_RANGE_SIZE ≤ a) → mem2 a = mem a) →
      ∀ a, (a < base ∨ base + GPIO_ADDR_RANGE_SIZE ≤ a) →
        execOps layout pdat mem2 ops a = mem a := by
  induction ops with
  | nil => exact fun mem2 h a ha => h a ha
  | cons op ops ih =>
    intro mem2 h a ha
    have hstep : execOps layout pdat mem2 (op :: ops)
        = execOps layout pdat (LineOp.exec layout pdat mem2 op) ops := rfl
    rw [hstep]
    refine ih _ (fun b hb => ?_) a ha
    have hmem : ∀ m, mem2 (pdat + layout m) = mem (pdat + layout m) := fun m =>
      h _ (by rcases hsep m with hm | hm <;> omega)
    have hst2 : privDatAt layout pdat mem2 = some (fill_priv_dat fd base p) := by
      rw [privDatAt_congr layout pdat hmem, hstored]
    cases op with
    | set_fn fn =>
      show (__set_gpio_fn (privDatAt layout pdat mem2) fn mem2).2 b = mem b
      rw [hst2, set_gpio_fn_outside_region fd base hp fn mem2 b hb]
      exact h b hb
    | write v =>
      show (__write_gpio (privDatAt layout pdat mem2) v mem2).2 b = mem b
      rw [hst2, write_gpio_outside_region fd base hp v mem2 b hb]
      exact h b hb

theorem execOps_null (layout : Member → Nat) (mem : Regs) (ops : List LineOp) :
    execOps layout 0 mem ops = mem := by
  induction ops with
  | nil => rfl
  | cons op ops ih =>
    have hstep : execOps layout 0 mem (op :: ops)
        = execOps layout 0 (LineOp.exec layout 0 mem op) ops := rfl
    have hop : LineOp.exec layout 0 mem op = mem := by
      cases op <;> rfl
    rw [hstep, hop, ih]

/-- The member cells are ordinary memory to the two operations: when the `_fn_sel_reg`
member aims at the structure's own `_1_bit_map_mask` member, `__set_gpio_fn` overwrites
that member (from `0xFFFFFFFF` to `0x3F9FFFFF`).  That members keep their values is
therefore a fact about where the stores of the two bodies go. -/
theorem set_gpio_fn_at_overwrites_aliased_member :
    line17MemoryAliased (0x100000 + lp64Layout Member._1_bit_map_mask) = 0xFFFFFFFF ∧
    (__set_gpio_fn_at lp64Layout 0x100000 FunctionSelect.INPUT line17MemoryAliased).1 = 0 ∧
    (__set_gpio_fn_at lp64Layout 0x100000 FunctionSelect.INPUT line17MemoryAliased).2
        (0x100000 + lp64Layout Member._1_bit_map_mask) = 0x3F9FFFFF := by
  decide

/-- C22: let the private structure of a requested line (valid pin `p`, region at `base`)
sit in memory at `pdat`, every member outside the mapped region.  After any sequence of
`__set_gpio_fn` and `__write_gpio` calls with any arguments, every member (pin value, the
three write masks, the twelve register pointers and the rest) holds the value it held
before, as does every cell outside the mapped region, so the private data still reads as
the requested one; with the `NULL` pointer the calls leave all memory as it was.  Moreover `__set_gpio_fn` leaves every word other than the line's
FunctionSelect word as it was, and `__write_gpio` on a requested line leaves the
FunctionSelect word as it was. -/
theorem resolution_unchanged_by_operations (layout : Member → Nat) (pdat fd base p v : Nat)
    (mem : Regs) (ops : List LineOp) (pd : Option _gpio_internals_t) (fn : FunctionSelect)
    (regs : Regs) (hp : p ≤ 57)
    (hstored : privDatAt layout pdat mem = some (fill_priv_dat fd base p))
    (hsep : ∀ m, pdat + layout m + 8 ≤ base ∨ base + GPIO_ADDR_RANGE_SIZE ≤ pdat + layout m) :
    (∀ m, execOps layout pdat mem ops (pdat + layout m) = mem (pdat + layout m)) ∧
    (∀ a, (a < base ∨ base + GPIO_ADDR_RANGE_SIZE ≤ a) →
      execOps layout pdat mem ops a = mem a) ∧
    privDatAt layout pdat (execOps layout pdat mem ops) = some (fill_priv_dat fd base p) ∧
    execOps layout 0 mem ops = mem ∧
    (∀ a : Nat, (∀ d, pd = some d → a ≠ d._fn_sel_reg) →
      (__set_gpio_fn pd fn regs).2 a = regs a) ∧
    (__write_gpio (some (fill_priv_dat fd base p)) v regs).2 (fill_priv_dat fd base p)._fn_sel_reg
      = regs (fill_priv_dat fd base p)._fn_sel_reg := by
  have hout := execOps_outside_region layout pdat fd base hp mem hstored hsep ops mem
    (fun _ _ => rfl)
  have hmem : ∀ m, execOps layout pdat mem ops (pdat + layout m) = mem (pdat + layout m) :=
    fun m => hout _ (by rcases hsep m with hm | hm <;> omega)
  refine ⟨hmem, hout, ?_, execOps_null layout mem ops,
    fun a h => set_gpio_fn_frame pd fn regs a h,
    write_gpio_keeps_fn_sel_word fd base v regs hp⟩
  rw [privDatAt_congr layout pdat hmem, hstored]

/-- C22 on the structure of the line of pin 17 at `0x100000`, region at `0x7000`, pin 17
an output: after selecting `ALT_0`, driving high and driving low, the `_pin_value` and
`_set_reg` members still hold 17 and `0x701C` and the structure reads as the requested
one. -/
theorem resolution_unchanged_by_operations_witness :
    17 ≤ 57 ∧
    privDatAt lp64Layout 0x100000 line17Memory = some (fill_priv_dat 3 0x7000 17) ∧
    (∀ m, 0x100000 + lp64Layout m + 8 ≤ 0x7000 ∨
      0x7000 + GPIO_ADDR_RANGE_SIZE ≤ 0x100000 + lp64Layout m) ∧
    execOps lp64Layout 0x100000 line17Memory
        [LineOp.set_fn FunctionSelect.ALT_0, LineOp.write 1, LineOp.write 0]
        (0x100000 + lp64Layout Member._pin_value)
      = line17Memory (0x100000 + lp64Layout Member._pin_value) ∧
    execOps lp64Layout 0x100000 line17Memory
        [LineOp.set_fn FunctionSelect.ALT_0, LineOp.write 1, LineOp.write 0]
        (0x100000 + lp64Layout Member._set_reg)
      = line17Memory (0x100000 + lp64Layout Member._set_reg) ∧
    privDatAt lp64Layout 0x100000
        (execOps lp64Layout 0x100000 line17Memory
          [LineOp.set_fn FunctionSelect.ALT_0, LineOp.write 1, LineOp.write 0])
      = some (fill_priv_dat 3 0x7000 17) :=
  have hsep : ∀ m, 0x100000 + lp64Layout m + 8 ≤ 0x7000 ∨
      0x7000 + GPIO_ADDR_RANGE_SIZE ≤ 0x100000 + lp64Layout m := by
    intro m
    cases m <;> decide
  have h := resolution_unchanged_by_operations lp64Layout 0x100000 3 0x7000 17 1
    line17Memory [LineOp.set_fn FunctionSelect.ALT_0, LineOp.write 1, LineOp.write 0]
    (some (fill_priv_dat 3 0x7000 17)) FunctionSelect.ALT_0 outputRegs17 (by decide)
    (by decide) hsep
  ⟨by decide, by decide, hsep, h.1 Member._pin_value, h.1 Member._set_reg, h.2.2.1⟩

/-! ## C23: colliding offsets in the register table -/

/-- C23 as stated fails for the LowLevel family: its offsets `0x64`, `0x68` are not
offsets of the RisingEdge family (`0x4C`, `0x50`) nor of the FallingEdge family (`0x58`,
`0x5C`), and on the line requested for pin 17 (region at `0x7000`) the LowLevel pointer
`0x7064` differs from the RisingEdge pointer `0x704C` and the FallingEdge pointer
`0x7058`. -/
theorem low_level_offsets_collide_with_nothing :
    GPLEN_REGS = [0x64, 0x68] ∧ GPREN_REGS = [0x4C, 0x50] ∧ GPFEN_REGS = [0x58, 0x5C] ∧
    (∀ x ∈ GPLEN_REGS, x ∉ GPREN_REGS ∧ x ∉ GPFEN_REGS) ∧
    (fill_priv_dat 3 0x7000 17)._len_reg = 0x7064 ∧
    (fill_priv_dat 3 0x7000 17)._ren_reg = 0x704C ∧
    (fill_priv_dat 3 0x7000 17)._fen_reg = 0x7058 ∧
    (fill_priv_dat 3 0x7000 17)._len_reg ≠ (fill_priv_dat 3 0x7000 17)._ren_reg ∧
    (fill_priv_dat 3 0x7000 17)._len_reg ≠ (fill_priv_dat 3 0x7000 17)._fen_reg := by
  decide

/-- C23 amended: in the register table the HighLevel family has the offsets of the
FallingEdge family (`0x58`, `0x5C`), so for every pin the HighLevel pointer stored by
`request_gpio_line` equals the FallingEdge pointer; the LowLevel family (`0x64`, `0x68`)
shares no offset with the RisingEdge or FallingEdge family, and for every pin the
LowLevel pointer differs from both. -/
theorem high_level_offsets_equal_falling_edge (fd : Int) (base p : Nat) :
    GPHEN_REGS = GPFEN_REGS ∧
    (fill_priv_dat fd base p)._hen_reg = (fill_priv_dat fd base p)._fen_reg ∧
    (∀ x ∈ GPLEN_REGS, x ∉ GPREN_REGS ∧ x ∉ GPFEN_REGS) ∧
    (fill_priv_dat fd base p)._len_reg ≠ (fill_priv_dat fd base p)._ren_reg ∧
    (fill_priv_dat fd base p)._len_reg ≠ (fill_priv_dat fd base p)._fen_reg := by
  have hind : single_bit_reg_ind p = 0 ∨ single_bit_reg_ind p = 1 := by
    simp only [single_bit_reg_ind, PIN_MAX_BIT, BIT_1_REGS_SZ, GPSET_REGS, List.length]
    omega
  refine ⟨by decide, rfl, by decide, ?_, ?_⟩
  · rcases hind with h | h <;>
      simp [fill_priv_dat, h, tableAt, GPLEN_REGS, GPREN_REGS, GPLEN0_OFF, GPLEN1_OFF,
        GPREN0_OFF, GPREN1_OFF]
  · rcases hind with h | h <;>
      simp [fill_priv_dat, h, tableAt, GPLEN_REGS, GPFEN_REGS, GPLEN0_OFF, GPLEN1_OFF,
        GPFEN0_OFF, GPFEN1_OFF]

/-- C23 amended, on the line requested for pin 17 (region at `0x7000`): the HighLevel
pointer equals the FallingEdge pointer and `0x64` is an offset of neither edge family. -/
theorem high_level_offsets_equal_falling_edge_witness :
    (fill_priv_dat 3 0x7000 17)._hen_reg = (fill_priv_dat 3 0x7000 17)._fen_reg ∧
    (0x64 ∈ GPLEN_REGS ∧ 0x64 ∉ GPREN_REGS ∧ 0x64 ∉ GPFEN_REGS) :=
  ⟨(high_level_offsets_equal_falling_edge 3 0x7000 17).2.1,
    by decide,
    (high_level_offsets_equal_falling_edge 3 0x7000 17).2.2.1 0x64 (by decide)⟩

/-! ## C24: fields and write masks -/

theorem field_bits_at_valid_pin :
    ∀ p, p < 58 →
      ((7 <<< ((p % 10) * 3)) &&& (fill_priv_dat 0 0 p)._3_bit_map_mask
          = 7 <<< ((p % 10) * 3)) ∧
      ((3 <<< ((p % 16) * 2)) &&& (fill_priv_dat 0 0 p)._2_bit_map_mask
          = 3 <<< ((p % 16) * 2)) ∧
      ((1 <<< (p % 32)) &&& (fill_priv_dat 0 0 p)._1_bit_map_mask = 1 <<< (p % 32)) ∧
      (u32 ((0x03 <<< bit_shift p) ^^^ (fill_priv_dat 0 0 p)._3_bit_map_mask)
          = (fill_priv_dat 0 0 p)._3_bit_map_mask &&& not32 (0x03 <<< bit_shift p)) ∧
      (u32 ((7 <<< ((p % 10) * 3)) ^^^ (fill_priv_dat 0 0 p)._3_bit_map_mask)
          = (fill_priv_dat 0 0 p)._3_bit_map_mask &&& not32 (7 <<< ((p % 10) * 3))) ∧
      (u32 ((0x01 <<< setclr_bit_shift p) ^^^ (fill_priv_dat 0 0 p)._1_bit_map_mask)
          = (fill_priv_dat 0 0 p)._1_bit_map_mask &&& not32 (0x01 <<< setclr_bit_shift p)) := by
  decide

/-- C24: for every pin `p` in `0..57` the bits `7 << (p mod 10) * 3`, `3 << (p mod 16) * 2`
and `1 << (p mod 32)` lie inside the 3-bit, 2-bit and 1-bit write mask that
`request_gpio_line` stores for `p`; the three last-word masks are the unions of these
fields over the pins 50 to 57, 48 to 57 and 32 to 57; and the clear masks the code forms
with XOR, `(0x03 << bit_shift) ^ mask` in `__set_gpio_fn` and
`(0x01 << setclr_bit_shift) ^ mask` in `__write_gpio`, equal `mask & ~bits`, as does the
XOR of the mask with the whole 3-bit field. -/
theorem fields_lie_inside_write_masks (p fd base : Nat) (hp : p ≤ 57) :
    ((7 <<< ((p % 10) * 3)) &&& (fill_priv_dat fd base p)._3_bit_map_mask
        = 7 <<< ((p % 10) * 3)) ∧
    ((3 <<< ((p % 16) * 2)) &&& (fill_priv_dat fd base p)._2_bit_map_mask
        = 3 <<< ((p % 16) * 2)) ∧
    ((1 <<< (p % 32)) &&& (fill_priv_dat fd base p)._1_bit_map_mask = 1 <<< (p % 32)) ∧
    fieldUnion (fun q => 7 <<< ((q % 10) * 3)) 50 8 = GPREG5_3BIT_WRITE_MASK ∧
    fieldUnion (fun q => 3 <<< ((q % 16) * 2)) 48 10 = GPREG3_2BIT_WRITE_MASK ∧
    fieldUnion (fun q => 1 <<< (q % 32)) 32 26 = GPREG1_1BIT_WRITE_MASK ∧
    (u32 ((0x03 <<< bit_shift p) ^^^ (fill_priv_dat fd base p)._3_bit_map_mask)
        = (fill_priv_dat fd base p)._3_bit_map_mask &&& not32 (0x03 <<< bit_shift p)) ∧
    (u32 ((7 <<< ((p % 10) * 3)) ^^^ (fill_priv_dat fd base p)._3_bit_map_mask)
        = (fill_priv_dat fd base p)._3_bit_map_mask &&& not32 (7 <<< ((p % 10) * 3))) ∧
    (u32 ((0x01 <<< setclr_bit_shift p) ^^^ (fill_priv_dat fd base p)._1_bit_map_mask)
        = (fill_priv_dat fd base p)._1_bit_map_mask
            &&& not32 (0x01 <<< setclr_bit_shift p)) := by
  obtain ⟨h1, h2, h3, h4, h5, h6⟩ := field_bits_at_valid_pin p (by omega)
  exact ⟨h1, h2, h3, by decide, by decide, by decide, h4, h5, h6⟩

/-- C24 at pin 57, the last pin: its fields are bits 23:21 of FunctionSelect word 5,
bits 19:18 of PullConfig word 3 and bit 25 of 1-bit word 1. -/
theorem fields_lie_inside_write_masks_witness :
    57 ≤ 57 ∧
    ((7 <<< ((57 % 10) * 3)) &&& (fill_priv_dat 3 0x7000 57)._3_bit_map_mask
        = 7 <<< ((57 % 10) * 3)) ∧
    ((3 <<< ((57 % 16) * 2)) &&& (fill_priv_dat 3 0x7000 57)._2_bit_map_mask
        = 3 <<< ((57 % 16) * 2)) ∧
    ((1 <<< (57 % 32)) &&& (fill_priv_dat 3 0x7000 57)._1_bit_map_mask = 1 <<< (57 % 32)) :=
  have h := fields_lie_inside_write_masks 57 3 0x7000 (by decide)
  ⟨by decide, h.1, h.2.1, h.2.2.1⟩

/-! ## C25: table and register accesses stay in bounds -/

theorem offsets_at_valid_pin :
    ∀ p, p < 58 →
      ∀ r ∈ registerPointers (fill_priv_dat 0 0 p), r % 4 = 0 ∧ r + 4 ≤ GPIO_ADDR_RANGE_SIZE := by
  decide

theorem registerPointers_base (fd : Int) (base p : Nat) :
    registerPointers (fill_priv_dat fd base p)
      = (registerPointers (fill_priv_dat 0 0 p)).map (fun off => base + off) := by
  simp [registerPointers, fill_priv_dat]

/-- C25: for every pin value the three indices computed by `request_gpio_line` are below
the lengths 6, 4 and 2 of the tables they index; for `p ≤ 57` the reduction modulo the
table length changes nothing (`p / 10 < 6`, `p / 16 < 4`, `p / 32 < 2`); and each of the
twelve register pointers stored for a valid pin is the mapped base plus an offset that is
a multiple of 4 with `offset + 4 ≤ GPIO_ADDR_RANGE_SIZE = 0xF4`, the length passed to
`mmap`. -/
theorem register_accesses_in_bounds (q p fd base : Nat) (hp : p ≤ 57) :
    (fn_sel_reg_ind q < FNSEL_REGS.length ∧ FNSEL_REGS.length = 6) ∧
    (pup_pdn_reg_ind q < PUP_PDN_REGS.length ∧ PUP_PDN_REGS.length = 4) ∧
    (single_bit_reg_ind q < GPSET_REGS.length ∧ GPSET_REGS.length = 2) ∧
    (fn_sel_reg_ind p = p / 10 ∧ p / 10 < 6) ∧
    (pup_pdn_reg_ind p = p / 16 ∧ p / 16 < 4) ∧
    (single_bit_reg_ind p = p / 32 ∧ p / 32 < 2) ∧
    GPIO_ADDR_RANGE_SIZE = 0xF4 ∧
    (registerPointers (fill_priv_dat fd base p)).length = 12 ∧
    (∀ r ∈ registerPointers (fill_priv_dat fd base p),
      base ≤ r ∧ (r - base) % 4 = 0 ∧ (r - base) + 4 ≤ GPIO_ADDR_RANGE_SIZE) := by
  refine ⟨⟨?_, rfl⟩, ⟨?_, rfl⟩, ⟨?_, rfl⟩, ⟨?_, by omega⟩, ⟨?_, by omega⟩, ⟨?_, by omega⟩,
    by decide, rfl, ?_⟩
  · exact Nat.mod_lt _ (by decide)
  · exact Nat.mod_lt _ (by decide)
  · exact Nat.mod_lt _ (by decide)
  · simp only [fn_sel_reg_ind, BASE_TEN, FNSEL_REGS_SZ, FNSEL_REGS, List.length]
    omega
  · simp only [pup_pdn_reg_ind, BIT32_SIZE, BIT_VALUE_1, PUP_PDN_REGS_SZ, PUP_PDN_REGS,
      List.length]
    omega
  · simp only [single_bit_reg_ind, PIN_MAX_BIT, BIT_1_REGS_SZ, GPSET_REGS, List.length]
    omega
  · intro r hr
    rw [registerPointers_base, List.mem_map] at hr
    obtain ⟨off, hoff, rfl⟩ := hr
    obtain ⟨h4, hle⟩ := offsets_at_valid_pin p (by omega) off hoff
    refine ⟨Nat.le_add_right _ _, ?_, ?_⟩
    · rw [Nat.add_sub_cancel_left]; exact h4
    · rw [Nat.add_sub_cancel_left]; exact hle

/-- C25 at pin 57 of the region at `0x7000`: the PullConfig pointer `0x70F0`, the
highest one, ends exactly at the end of the mapped region. -/
theorem register_accesses_in_bounds_witness :
    57 ≤ 57 ∧
    (fill_priv_dat 3 0x7000 57)._pup_pdn_reg ∈ registerPointers (fill_priv_dat 3 0x7000 57) ∧
    (0x7000 ≤ (fill_priv_dat 3 0x7000 57)._pup_pdn_reg ∧
      ((fill_priv_dat 3 0x7000 57)._pup_pdn_reg - 0x7000) % 4 = 0 ∧
      ((fill_priv_dat 3 0x7000 57)._pup_pdn_reg - 0x7000) + 4 ≤ GPIO_ADDR_RANGE_SIZE) :=
  ⟨by decide, by decide,
    (register_accesses_in_bounds 255 57 3 0x7000 (by decide)).2.2.2.2.2.2.2.2
      (fill_priv_dat 3 0x7000 57)._pup_pdn_reg (by decide)⟩

/-! ## C26: function select from a code below 4 -/

theorem testBit_shiftLeft_add (x s i : Nat) : (x <<< s).testBit (s + i) = x.testBit i := by
  rw [Nat.testBit_shiftLeft]
  have h : s + i ≥ s := Nat.le_add_right s i
  simp [h]

theorem liveFunction_testBit (d : _gpio_internals_t) (regs : Regs) (i : Nat) :
    (liveFunction d regs).testBit i
      = ((read32 regs d._fn_sel_reg).testBit ((d._pin_value % 10) * 3 + i) && decide (i < 3)) := by
  have h7 : Nat.testBit 7 i = decide (i < 3) := Nat.testBit_two_pow_sub_one 3 i
  simp only [liveFunction, Nat.testBit_and, Nat.testBit_shiftRight, h7]

theorem liveFunction_after_set_gpio_fn (fd base : Nat) {p : Nat} (hp : p ≤ 57)
    (fn : FunctionSelect) (regs : Regs)
    (hlow : liveFunction (fill_priv_dat fd base p) regs < 4) :
    liveFunction (fill_priv_dat fd base p)
        (__set_gpio_fn (some (fill_priv_dat fd base p)) fn regs).2 = fn.val := by
  have hpin : (fill_priv_dat fd base p)._pin_value = p := rfl
  have hold : (regs (fill_priv_dat fd base p)._fn_sel_reg).testBit ((p % 10) * 3 + 2) = false := by
    have h2 : (liveFunction (fill_priv_dat fd base p) regs).testBit 2 = false :=
      Nat.testBit_lt_two_pow hlow
    rw [liveFunction_testBit, hpin, read32, testBit_u32] at h2
    have h32 : (p % 10) * 3 + 2 < 32 := by omega
    simpa [h32] using h2
  rw [set_gpio_fn_eq _ fn regs (by rw [hpin]; exact hp)]
  apply Nat.eq_of_testBit_eq
  intro i
  rw [liveFunction_testBit, hpin, read32]
  dsimp only
  rw [write32_same, testBit_u32, testBit_u32, fnSelWord_testBit fd base hp,
    testBit_shiftLeft_add, testBit_shiftLeft_add]
  by_cases hi : i < 3
  · have h32 : (p % 10) * 3 + i < 32 := by omega
    have hm : (p % 10) * 3 + i < (if p / 10 = 5 then 24 else 30) := by
      split <;> omega
    have h30 : Nat.testBit 3 0 = true := by decide
    have h31 : Nat.testBit 3 1 = true := by decide
    have h32b : Nat.testBit 3 2 = false := by decide
    have h32z : (p % 10) * 3 < 32 := by omega
    interval_cases i
    · simp [h32z, h30]
    · simp [h32, h31]
    · simp [h32, h32b, hold]
  · have hfn : fn.val.testBit i = false :=
      Nat.testBit_lt_two_pow
        (lt_of_lt_of_le fn.val_lt (Nat.pow_le_pow_right (by decide) (by omega)))
    simp [hi, hfn]

/-- C26: on a requested line (valid pin `p`), when the pin's current 3-bit code in the
FunctionSelect word is below 4, `__set_gpio_fn` with any of the eight function codes
returns `0` and the pin's field then reads exactly that code; from such a state
`__set_gpio_fn(OUTPUT)` followed by `__write_gpio(1)` returns `0` and bit `p mod 32` of
the pin's Set word is `1`. -/
theorem set_gpio_fn_from_code_below_four (fd base p : Nat) (fn : FunctionSelect)
    (regs : Regs) (hp : p ≤ 57)
    (hlow : (read32 regs (fill_priv_dat fd base p)._fn_sel_reg >>> ((p % 10) * 3)) &&& 7 < 4) :
    (__set_gpio_fn (some (fill_priv_dat fd base p)) fn regs).1 = 0 ∧
    (read32 (__set_gpio_fn (some (fill_priv_dat fd base p)) fn regs).2
        (fill_priv_dat fd base p)._fn_sel_reg >>> ((p % 10) * 3)) &&& 7 = fn.val ∧
    (__write_gpio (some (fill_priv_dat fd base p)) 1
      (__set_gpio_fn (some (fill_priv_dat fd base p)) FunctionSelect.OUTPUT regs).2).1 = 0 ∧
    ((__write_gpio (some (fill_priv_dat fd base p)) 1
      (__set_gpio_fn (some (fill_priv_dat fd base p)) FunctionSelect.OUTPUT regs).2).2
        (fill_priv_dat fd base p)._set_reg).testBit (p % 32) = true := by
  have hpin : (fill_priv_dat fd base p)._pin_value = p := rfl
  have hvalid : (fill_priv_dat fd base p)._pin_value ≤ 57 := by rw [hpin]; exact hp
  have hlow2 : liveFunction (fill_priv_dat fd base p) regs < 4 := hlow
  have hout := liveFunction_after_set_gpio_fn fd base hp FunctionSelect.OUTPUT regs hlow2
  have hbit := fun r => strobeWord_testBit (fill_priv_dat fd base p) r
    (fill_priv_dat fd base p)._set_reg
  rw [hpin] at hbit
  refine ⟨?_, liveFunction_after_set_gpio_fn fd base hp fn regs hlow2, ?_, ?_⟩
  · rw [set_gpio_fn_eq _ fn regs hvalid]
  · rcases write_gpio_branches (fill_priv_dat fd base p) 1
        (__set_gpio_fn (some (fill_priv_dat fd base p)) FunctionSelect.OUTPUT regs).2 hvalid with
      ⟨hf, -⟩ | ⟨-, -, h⟩ | ⟨-, h0, -⟩ | ⟨-, h1, -, -⟩
    · exact absurd hout hf
    · rw [h]
    · exact absurd h0 (by decide)
    · exact absurd rfl h1
  · rcases write_gpio_branches (fill_priv_dat fd base p) 1
        (__set_gpio_fn (some (fill_priv_dat fd base p)) FunctionSelect.OUTPUT regs).2 hvalid with
      ⟨hf, -⟩ | ⟨-, -, h⟩ | ⟨-, h0, -⟩ | ⟨-, h1, -, -⟩
    · exact absurd hout hf
    · rw [h]
      show (write32 _ _ _ _).testBit (p % 32) = true
      rw [write32_same]
      exact hbit _
    · exact absurd h0 (by decide)
    · exact absurd rfl h1

/-- C26 on the line of pin 17 (region at `0x7000`) with every register zero, the reset
state: after `__set_gpio_fn(ALT_3)` the field reads 7, and `__set_gpio_fn(OUTPUT)`
followed by `__write_gpio(1)` returns `0` with bit 17 of the Set word set. -/
theorem set_gpio_fn_from_code_below_four_witness :
    17 ≤ 57 ∧
    (read32 zeroRegs (fill_priv_dat 3 0x7000 17)._fn_sel_reg >>> ((17 % 10) * 3)) &&& 7 < 4 ∧
    (read32 (__set_gpio_fn (some (fill_priv_dat 3 0x7000 17)) FunctionSelect.ALT_3
        zeroRegs).2 (fill_priv_dat 3 0x7000 17)._fn_sel_reg >>> ((17 % 10) * 3)) &&& 7
      = FunctionSelect.ALT_3.val ∧
    (__write_gpio (some (fill_priv_dat 3 0x7000 17)) 1
      (__set_gpio_fn (some (fill_priv_dat 3 0x7000 17)) FunctionSelect.OUTPUT
        zeroRegs).2).1 = 0 ∧
    ((__write_gpio (some (fill_priv_dat 3 0x7000 17)) 1
      (__set_gpio_fn (some (fill_priv_dat 3 0x7000 17)) FunctionSelect.OUTPUT zeroRegs).2).2
        (fill_priv_dat 3 0x7000 17)._set_reg).testBit (17 % 32) = true :=
  have h1 := set_gpio_fn_from_code_below_four 3 0x7000 17 FunctionSelect.ALT_3 zeroRegs
    (by decide) (by decide)
  ⟨by decide, by decide, h1.2.1, h1.2.2.1, h1.2.2.2⟩

/-! ## C27: the two public operations -/

/-- C27: for every line, device memory and function code, `set_gpio_fn(line, sel)` returns
the same value and leaves the same device memory as `write_gpio(line, sel)` with `sel`
converted to `uint8_t`; both go through the `_write_gpio` member, and both return
only `0` or `1`. -/
theorem public_operations_share_dispatch (line : gpio_line_t) (sel : FunctionSelect)
    (high_low : Nat) (regs : Regs) :
    set_gpio_fn line sel regs = write_gpio line (u8 sel.val) regs ∧
    ((set_gpio_fn line sel regs).1 = 0 ∨ (set_gpio_fn line sel regs).1 = 1) ∧
    ((write_gpio line high_low regs).1 = 0 ∨ (write_gpio line high_low regs).1 = 1) := by
  have hu : u8 (u8 sel.val) = u8 sel.val := Nat.mod_eq_of_lt (Nat.mod_lt _ (by decide))
  have hl : ∀ b : Int, logicalAnd1 b = 0 ∨ logicalAnd1 b = 1 := by
    intro b
    by_cases h : b ≠ 0
    · right; simp only [logicalAnd1, if_pos h]
    · left; simp only [logicalAnd1, if_neg h]
  cases hpd : line.priv_dat with
  | none =>
    simp only [set_gpio_fn, write_gpio, hpd]
    exact ⟨trivial, Or.inl trivial, Or.inl trivial⟩
  | some d =>
    simp only [set_gpio_fn, write_gpio, hpd, hu]
    exact ⟨trivial, hl _, hl _⟩

end Gpiod
